import Mathlib

/-!
Shallow embedding of the mental-health screening backend
(`backend/safety_monitor.py`, `backend/session_manager.py`,
`backend/conversation_flow.py`) and proofs about its specification.

Modelling conventions:
* Python strings are `List Char`; string literals are written `"…".data`.
* Wall-clock time is an abstract `Nat` threaded explicitly (`now`); all
  `datetime.now()` reads inside one call see the same `now`.
* Python dicts are insertion-ordered association lists.
* `random.choice` is modelled by a caller-supplied index `rand`.
* Code paths that raise in Python (IndexError on `questions[0]`,
  AttributeError on `scale.get` when the scale is missing) are modelled
  explicitly, mirroring the `except` branches that catch them.
-/

namespace MHABackend

/-- Python strings, modelled as lists of characters. -/
abbrev Str := List Char

/-- Python `s.lower()`. -/
def pyLower (s : Str) : Str := s.map Char.toLower

/-- Python `s.strip()`: drop whitespace from both ends. -/
def pyStrip (s : Str) : Str :=
  ((s.dropWhile Char.isWhitespace).reverse.dropWhile Char.isWhitespace).reverse

/-- Python `needle in haystack` (substring containment). -/
def pyContains : (haystack needle : Str) → Bool
  | [], needle => needle.isEmpty
  | c :: t, needle => needle.isPrefixOf (c :: t) || pyContains t needle

/-- Python `d.get(k, dflt)` on a string-keyed dict (insertion-ordered assoc list). -/
def pyDictGet {α : Type} (l : List (Str × α)) (k : Str) (dflt : α) : α :=
  match l.find? (fun p => p.1 == k) with
  | some p => p.2
  | none => dflt

/-- Python `d.get(k)` on a string-keyed dict (`None` default). -/
def pyDictGetOpt {α : Type} (l : List (Str × α)) (k : Str) : Option α :=
  (l.find? (fun p => p.1 == k)).map (·.2)

/-! ### safety_monitor.py -/

/-- `CrisisLevel` enum. -/
inductive CrisisLevel
  | NONE
  | WARNING
  | CRITICAL
deriving DecidableEq, Repr

/-- `CrisisResponse` dataclass. The wall-clock `timestamp` field is metadata
never read by any logic and is omitted. -/
structure CrisisResponse where
  level : CrisisLevel
  triggered_words : List Str
  message : Str
  requires_override : Bool
deriving DecidableEq, Repr

/-- `SafetyMonitor`, holding the values its `__init__` extracts from config:
`critical_triggers = config.get("crisis", {}).get("keywords", [])` and
`crisis_response_message = config.get("crisis", {}).get("response", "")`. -/
structure SafetyMonitor where
  critical_triggers : List Str
  crisis_response_message : Str
deriving DecidableEq, Repr

/-- `SafetyMonitor._get_crisis_message`. -/
def SafetyMonitor._get_crisis_message (m : SafetyMonitor) : Str :=
  m.crisis_response_message

/-- `SafetyMonitor.check_for_crisis`.  `none` models a non-string argument;
`some []` is the empty string (both fail Python's `if not text or not
isinstance(text, str)` guard the same way). -/
def SafetyMonitor.check_for_crisis (m : SafetyMonitor) (text : Option Str) :
    CrisisResponse :=
  match text with
  | none => ⟨.NONE, [], [], false⟩
  | some t =>
    if t = [] then ⟨.NONE, [], [], false⟩
    else
      let normalized_text := pyStrip (pyLower t)
      let triggered_words :=
        m.critical_triggers.filter (fun trig => pyContains normalized_text (pyLower trig))
      if triggered_words.isEmpty then ⟨.NONE, [], [], false⟩
      else ⟨.CRITICAL, triggered_words, m._get_crisis_message, true⟩

/-! ### session_manager.py : data model -/

/-- `ConversationPhase` enum. -/
inductive ConversationPhase
  | GREETING
  | TRIAGE
  | SCREENING
  | RESULTS
  | CRISIS_RESPONSE
deriving DecidableEq, Repr

/-- `ScreeningTool` enum. -/
inductive ScreeningTool
  | PHQ9
  | GAD7
  | GHQ12
deriving DecidableEq, Repr

/-- Python's `Enum.name` for `ScreeningTool` (identical to `.value` here). -/
def ScreeningTool.name : ScreeningTool → Str
  | .PHQ9 => "PHQ9".data
  | .GAD7 => "GAD7".data
  | .GHQ12 => "GHQ12".data

/-- `QuestionResponse` dataclass. -/
structure QuestionResponse where
  question_id : Str
  user_text : Str
  mapped_score : Int
  timestamp : Nat
deriving DecidableEq, Repr

/-- One entry of `SessionData.conversation_history`. -/
structure HistoryEntry where
  user_message : Str
  ai_response : Str
  phase : ConversationPhase
  timestamp : Nat
deriving DecidableEq, Repr

/-- `SessionData` dataclass. Session ids are opaque tokens, modelled as `Nat`. -/
structure SessionData where
  session_id : Nat
  user_name : Option Str := none
  country : Option Str := none
  start_time : Nat
  last_activity : Nat
  current_phase : ConversationPhase := .GREETING
  selected_tool : Option ScreeningTool := none
  responses : List QuestionResponse := []
  has_past_diagnosis : Option Bool := none
  crisis_detected : Bool := false
  completed : Bool := false
  conversation_history : List HistoryEntry := []
deriving DecidableEq, Repr

/-- `SessionData.update_activity`. -/
def SessionData.update_activity (s : SessionData) (now : Nat) : SessionData :=
  { s with last_activity := now }

/-- `SessionData.add_response`. -/
def SessionData.add_response (s : SessionData) (question_id user_text : Str)
    (mapped_score : Int) (now : Nat) : SessionData :=
  { s with
    responses := s.responses ++ [⟨question_id, user_text, mapped_score, now⟩],
    last_activity := now }

/-- `SessionData.add_conversation_entry`. -/
def SessionData.add_conversation_entry (s : SessionData)
    (user_message ai_response : Str) (phase : ConversationPhase) (now : Nat) :
    SessionData :=
  { s with
    conversation_history :=
      s.conversation_history ++ [⟨user_message, ai_response, phase, now⟩],
    last_activity := now }

/-- `SessionData.is_expired`: `datetime.now() > last_activity + timeout`. -/
def SessionData.is_expired (s : SessionData) (timeout_minutes now : Nat) : Bool :=
  now > s.last_activity + timeout_minutes

/-- `SessionData.get_total_score`. -/
def SessionData.get_total_score (s : SessionData) : Int :=
  (s.responses.map (·.mapped_score)).sum

/-! ### session_manager.py : SessionManager store

The Python store is a `Dict[str, SessionData]` guarded by a single re-entrant
lock; every public operation runs entirely inside the lock, so the store is a
sequential object and is modelled as a pure value threaded through operations.
The insertion-ordered dict is an association list on `Nat` keys. -/

/-- Python dict read `d.get(k)`. -/
def dictGet {α : Type} (l : List (Nat × α)) (k : Nat) : Option α :=
  (l.find? (fun p => p.1 == k)).map (·.2)

/-- Python dict write `d[k] = v`: update the binding in place if the key is
present, else append the new binding at the end (dicts are insertion-ordered). -/
def dictSet {α : Type} : List (Nat × α) → Nat → α → List (Nat × α)
  | [], k, v => [(k, v)]
  | p :: t, k, v => if p.1 = k then (k, v) :: t else p :: dictSet t k v

/-- Python `del d[k]` (no-op when absent; callers check presence first). -/
def dictErase {α : Type} (l : List (Nat × α)) (k : Nat) : List (Nat × α) :=
  l.eraseP (fun p => p.1 == k)

/-- The `SessionManager` store state. -/
structure SessionManager where
  timeout_minutes : Nat
  max_sessions : Nat
  sessions : List (Nat × SessionData)
deriving DecidableEq, Repr

/-- `SessionManager.get_session`: lookup with lazy expiry; a live hit
refreshes `last_activity` in place and returns the (shared) session. -/
def SessionManager.get_session (m : SessionManager) (now sid : Nat) :
    Option SessionData × SessionManager :=
  match dictGet m.sessions sid with
  | none => (none, m)
  | some s =>
    if s.is_expired m.timeout_minutes now then
      (none, { m with sessions := dictErase m.sessions sid })
    else
      let s' := s.update_activity now
      (some s', { m with sessions := dictSet m.sessions sid s' })

/-- `SessionManager.cleanup_expired_sessions` (the background sweep body,
also invoked on demand). -/
def SessionManager.cleanup_expired_sessions (m : SessionManager) (now : Nat) :
    Nat × SessionManager :=
  let expired := m.sessions.filter (fun p => p.2.is_expired m.timeout_minutes now)
  (expired.length,
   { m with sessions := m.sessions.filter (fun p => !p.2.is_expired m.timeout_minutes now) })

/-- Helper for Python `min(keys, key=λ sid. sessions[sid].last_activity)`:
scan keeping the current best on ties (Python `min` keeps the first). -/
def oldestGo (best : Nat × SessionData) : List (Nat × SessionData) → Nat × SessionData
  | [] => best
  | q :: t => if q.2.last_activity < best.2.last_activity then oldestGo q t else oldestGo best t

/-- First entry with minimal `last_activity` (insertion order breaks ties),
`none` on an empty table (where Python's `min` raises `ValueError`). -/
def oldestEntry : List (Nat × SessionData) → Option (Nat × SessionData)
  | [] => none
  | p :: t => some (oldestGo p t)

/-- `SessionManager.create_session`.  The `uuid4` generation loop is modelled
by the caller-supplied `sid`; the `while session_id in self.sessions` loop
guarantees freshness in the source.  The first component is `none` exactly
when Python raises `ValueError` from `min` over an empty table (reachable
only with `max_sessions = 0`); the store is returned as the raise leaves it. -/
def SessionManager.create_session (m : SessionManager) (now sid : Nat)
    (user_name country : Option Str) : Option Nat × SessionManager :=
  let m1 := if m.sessions.length ≥ m.max_sessions
            then (m.cleanup_expired_sessions now).2 else m
  let fresh : SessionData :=
    { session_id := sid, user_name := user_name, country := country,
      start_time := now, last_activity := now }
  if m1.sessions.length ≥ m1.max_sessions then
    match oldestEntry m1.sessions with
    | none => (none, m1)
    | some oldest =>
      let m2 := { m1 with sessions := dictErase m1.sessions oldest.1 }
      (some sid, { m2 with sessions := dictSet m2.sessions sid fresh })
  else
    (some sid, { m1 with sessions := dictSet m1.sessions sid fresh })

/-- The keyword arguments a caller may pass to `SessionManager.update_session`;
`none` means "not passed".  `responses` appears here because
`_handle_triage_phase` passes `responses={}`, even though the store's
whitelist drops it. -/
structure SessionUpdates where
  current_phase : Option ConversationPhase := none
  selected_tool : Option ScreeningTool := none
  has_past_diagnosis : Option Bool := none
  crisis_detected : Option Bool := none
  completed : Option Bool := none
  user_name : Option Str := none
  country : Option Str := none
  responses : Option (List QuestionResponse) := none
deriving DecidableEq, Repr

/-- The `allowed_fields` whitelist loop of `SessionManager.update_session`:
`current_phase`, `selected_tool`, `has_past_diagnosis`, `crisis_detected`,
`completed`, `user_name`, `country`.  `responses` is NOT in the whitelist,
so `u.responses` is ignored. -/
def applyAllowedUpdates (s : SessionData) (u : SessionUpdates) : SessionData :=
  { s with
    current_phase := u.current_phase.getD s.current_phase,
    selected_tool :=
      match u.selected_tool with
      | some t => some t
      | none => s.selected_tool,
    has_past_diagnosis :=
      match u.has_past_diagnosis with
      | some b => some b
      | none => s.has_past_diagnosis,
    crisis_detected := u.crisis_detected.getD s.crisis_detected,
    completed := u.completed.getD s.completed,
    user_name :=
      match u.user_name with
      | some n => some n
      | none => s.user_name,
    country :=
      match u.country with
      | some c => some c
      | none => s.country }

/-- The shared shape of `update_session` / `add_response` /
`add_conversation`: fetch via `get_session` (touching lazy expiry), mutate
the shared session object in place (`g`), report success. -/
def SessionManager.mutate_live (m : SessionManager) (now sid : Nat)
    (g : SessionData → SessionData) : Bool × SessionManager :=
  match m.get_session now sid with
  | (none, m') => (false, m')
  | (some s, m') => (true, { m' with sessions := dictSet m'.sessions sid (g s) })

/-- `SessionManager.update_session`: fetch, apply the whitelisted fields,
refresh activity. -/
def SessionManager.update_session (m : SessionManager) (now sid : Nat)
    (u : SessionUpdates) : Bool × SessionManager :=
  m.mutate_live now sid (fun s => (applyAllowedUpdates s u).update_activity now)

/-- `SessionManager.add_response`. -/
def SessionManager.add_response (m : SessionManager) (now sid : Nat)
    (question_id user_text : Str) (mapped_score : Int) : Bool × SessionManager :=
  m.mutate_live now sid (fun s => s.add_response question_id user_text mapped_score now)

/-- `SessionManager.add_conversation`. -/
def SessionManager.add_conversation (m : SessionManager) (now sid : Nat)
    (user_message ai_response : Str) (phase : ConversationPhase) :
    Bool × SessionManager :=
  m.mutate_live now sid (fun s => s.add_conversation_entry user_message ai_response phase now)

/-- `SessionManager.delete_session`: a bare `in` check — no expiry test. -/
def SessionManager.delete_session (m : SessionManager) (sid : Nat) :
    Bool × SessionManager :=
  if m.sessions.any (fun p => p.1 == sid) then
    (true, { m with sessions := dictErase m.sessions sid })
  else (false, m)

/-- `SessionManager.get_session_count`. -/
def SessionManager.get_session_count (m : SessionManager) : Nat :=
  m.sessions.length

/-! ### conversation_flow.py

`ConversationFlowManager` reads `botConfig.json` once at startup; the loaded
configuration is modelled as the structure below.  Fields that the code reads
with `.get(key)` / `.get(key, default)` are `Option`s here, with the source's
default applied at each use site, so a missing key behaves exactly as in the
source (including the two different `exitResponse` defaults). -/

/-- One `questionnaires[tool]` table; `pyDictGet` with `{}` default mirrors
`config.get("questionnaires", {}).get(tool, {})`, under which `questions`
defaults to `[]`, `crisisQuestionIndex` to `None` and `thresholds` to `{}`.
`thresholds` is the ordered list of `(band, [low, high])` items. -/
structure Questionnaire where
  questions : List Str := []
  crisisQuestionIndex : Option Nat := none
  thresholds : List (Str × Int × Int) := []
deriving DecidableEq, Repr

/-- One `results[severity]` entry: `message` read with default `""`,
`suggestions` with default `[]`. -/
structure ResultBand where
  message : Str := []
  suggestions : List Str := []
deriving DecidableEq, Repr

/-- The loaded `botConfig.json` as consumed by `ConversationFlowManager`. -/
structure BotConfig where
  welcome : Option Str := none
  exitResponse : Option Str := none
  yesKeywords : List Str := []
  noKeywords : List Str := []
  moodPrompt : Option Str := none
  routing : List (Str × List Str) := []
  questionnaires : List (Str × Questionnaire) := []
  standardScale : Option (List (Str × List Str)) := none
  ghqScale : Option (List (Str × List Str)) := none
  clarifyPrompt : Option Str := none
  results : List (Str × ResultBand) := []
deriving DecidableEq, Repr

/-- `self.config.get("questionnaires", {}).get(tool_name, {})`. -/
def BotConfig.questionnaire (cfg : BotConfig) (tool_name : Str) : Questionnaire :=
  pyDictGet cfg.questionnaires tool_name {}

/-- `ConversationFlowManager`: bundles the loaded config with the
`SafetyMonitor` collaborator (the `SessionManager` round-trips are inlined
as explicit state passing on the live `SessionData`, see
`process_user_message` below). -/
structure ConversationFlowManager where
  config : BotConfig
  safety_monitor : SafetyMonitor
deriving DecidableEq, Repr

/-- The dict every handler returns, as a structure of optional keys
(`none` = key absent from the returned dict). -/
structure FlowResult where
  error : Option Str := none
  ai_response : Option Str := none
  current_phase : Option ConversationPhase := none
  crisis_detected : Bool := false
  next_action : Option Str := none
  completed : Option Bool := none
  selected_tool : Option ScreeningTool := none
  question_number : Option Nat := none
  total_score : Option Int := none
  severity_level : Option Str := none
  crisis_trigger : Option Str := none
deriving DecidableEq, Repr

/-- `ConversationFlowManager._get_error_response`. -/
def _get_error_response (s : SessionData) (error_message : Str) : FlowResult :=
  { error := some error_message,
    ai_response := some "I\x27m sorry, I encountered an error. Let\x27s try again.".data,
    current_phase := some s.current_phase,
    crisis_detected := false }

/-- A `session_manager.update_session` call on the live session being
processed: `get_session` succeeds and returns the same shared object, so the
call reduces to applying the whitelisted fields and touching activity. -/
def update_session_live (s : SessionData) (u : SessionUpdates) (now : Nat) :
    SessionData :=
  (applyAllowedUpdates s u).update_activity now

/-- The `self.tool_mapping` dict (`"PHQ9"/"GAD7"/"GHQ12"` to enum). -/
def tool_mapping (name : Str) : Option ScreeningTool :=
  if name == "PHQ9".data then some .PHQ9
  else if name == "GAD7".data then some .GAD7
  else if name == "GHQ12".data then some .GHQ12
  else none

/-- The routing scan of `_handle_triage_phase`: first tool (in dict order)
one of whose keywords is a substring of the lowered message wins. -/
def routeLookup : List (Str × List Str) → Str → Option Str
  | [], _ => none
  | (tool_name, keywords) :: rest, text =>
    if keywords.any (fun k => pyContains text k) then some tool_name
    else routeLookup rest text

/-- The matched routing name resolved through `self.tool_mapping`, with the
source's "default safety" fallback to GHQ12 when the name is unknown
(in which case `selected_tool_name` is also reset to `"GHQ12"`). -/
def toolPick (matched_name : Str) : ScreeningTool × Str :=
  match tool_mapping matched_name with
  | some t => (t, matched_name)
  | none => (ScreeningTool.GHQ12, "GHQ12".data)

/-- The `for score_val in ["3", "2", "1", "0"]` loop of
`_map_response_to_score`: highest score whose keyword set has a substring
hit, else `-1`. -/
def scoreScan (scale : List (Str × List Str)) (text : Str) : Int :=
  if (pyDictGet scale "3".data []).any (fun k => pyContains text k) then 3
  else if (pyDictGet scale "2".data []).any (fun k => pyContains text k) then 2
  else if (pyDictGet scale "1".data []).any (fun k => pyContains text k) then 1
  else if (pyDictGet scale "0".data []).any (fun k => pyContains text k) then 0
  else -1

/-- `ConversationFlowManager._map_response_to_score`.  `none` models the
`AttributeError` raised by `scale.get` when the selected scale key is
missing from `answerMapping` (caught by the screening handler's `except`). -/
def ConversationFlowManager._map_response_to_score (f : ConversationFlowManager)
    (user_text tool_name : Str) : Option Int :=
  let text := pyLower user_text
  let scale := if tool_name == "GHQ12".data then f.config.ghqScale
               else f.config.standardScale
  match scale with
  | none => none
  | some sc => some (scoreScan sc text)

/-- The severity scan of `_transition_to_results`: first band whose
inclusive range contains the total; the scan variable is initialised to
`"minimal"`, which therefore is the no-match fallback. -/
def severityScan : List (Str × Int × Int) → Int → Str
  | [], _ => "minimal".data
  | (sev_name, range_val) :: rest, total =>
    if range_val.1 ≤ total ∧ total ≤ range_val.2 then sev_name
    else severityScan rest total

/-- `ConversationFlowManager._handle_crisis_response`. -/
def ConversationFlowManager._handle_crisis_response (f : ConversationFlowManager)
    (now : Nat) (s : SessionData) (user_message : Str)
    (crisis_response : CrisisResponse) : FlowResult × SessionData :=
  let s1 := update_session_live s
    { crisis_detected := some true, current_phase := some .CRISIS_RESPONSE } now
  let crisis_message := crisis_response.message
  let s2 := s1.add_conversation_entry user_message crisis_message .CRISIS_RESPONSE now
  ({ ai_response := some crisis_message,
     current_phase := some .CRISIS_RESPONSE,
     crisis_detected := true,
     next_action := some "stop".data }, s2)

/-- `ConversationFlowManager._handle_phq9_q9_crisis`. -/
def ConversationFlowManager._handle_phq9_q9_crisis (f : ConversationFlowManager)
    (now : Nat) (s : SessionData) (user_message : Str) (score : Int) :
    FlowResult × SessionData :=
  let s1 := update_session_live s
    { crisis_detected := some true, current_phase := some .CRISIS_RESPONSE } now
  let s2 := s1.add_response "phq9_9".data user_message score now
  let crisis_message := f.safety_monitor._get_crisis_message
  let s3 := s2.add_conversation_entry user_message crisis_message .CRISIS_RESPONSE now
  ({ ai_response := some crisis_message,
     current_phase := some .CRISIS_RESPONSE,
     crisis_detected := true,
     crisis_trigger := some "PHQ9_Q9".data }, s3)

/-- `ConversationFlowManager._handle_unknown_phase`. -/
def ConversationFlowManager._handle_unknown_phase (f : ConversationFlowManager)
    (now : Nat) (s : SessionData) (user_message : Str) : FlowResult × SessionData :=
  let s1 := update_session_live s { current_phase := some .GREETING } now
  let msg := "Let\x27s start over. ".data ++ f.config.welcome.getD []
  let s2 := s1.add_conversation_entry user_message msg .GREETING now
  ({ ai_response := some msg,
     current_phase := some .GREETING,
     crisis_detected := false }, s2)

/-- `ConversationFlowManager._handle_greeting_phase`. -/
def ConversationFlowManager._handle_greeting_phase (f : ConversationFlowManager)
    (now : Nat) (s : SessionData) (user_message : Str) : FlowResult × SessionData :=
  let welcome_msg := f.config.welcome.getD []
  if s.conversation_history = [] then
    let s1 := s.add_conversation_entry user_message welcome_msg .GREETING now
    ({ ai_response := some welcome_msg,
       current_phase := some .GREETING,
       crisis_detected := false,
       next_action := some "wait_for_intro_response".data }, s1)
  else
    let user_text_lower := pyStrip (pyLower user_message)
    if f.config.yesKeywords.any (fun k => pyContains user_text_lower k) then
      let mood_prompt := f.config.moodPrompt.getD []
      let s1 := update_session_live s { current_phase := some .TRIAGE } now
      let s2 := s1.add_conversation_entry user_message mood_prompt .TRIAGE now
      ({ ai_response := some mood_prompt,
         current_phase := some .TRIAGE,
         crisis_detected := false,
         next_action := some "get_mood".data }, s2)
    else if f.config.noKeywords.any (fun k => pyContains user_text_lower k) then
      let exit_msg := f.config.exitResponse.getD []
      let s1 := s.add_conversation_entry user_message exit_msg .GREETING now
      ({ ai_response := some exit_msg,
         current_phase := some .GREETING,
         crisis_detected := false,
         completed := some true }, s1)
    else
      let retry_msg := "I didn\x27t quite catch that. Would you like to continue? Please say \x27yes\x27 or \x27no\x27.".data
      let s1 := s.add_conversation_entry user_message retry_msg .GREETING now
      ({ ai_response := some retry_msg,
         current_phase := some .GREETING,
         crisis_detected := false }, s1)

/-- `ConversationFlowManager._handle_triage_phase`.  The
`update_session(..., responses={})` call runs before `questions[0]` is read;
an empty question list raises IndexError there, caught by the handler's
`except`, which reports the (already advanced) phase. -/
def ConversationFlowManager._handle_triage_phase (f : ConversationFlowManager)
    (now : Nat) (s : SessionData) (user_message : Str) : FlowResult × SessionData :=
  let user_text_lower := pyLower user_message
  match routeLookup f.config.routing user_text_lower with
  | none =>
    let retry_msg := "Could you tell me if you are feeling more sad, anxious, or just generally stressed?".data
    let s1 := s.add_conversation_entry user_message retry_msg .TRIAGE now
    ({ ai_response := some retry_msg,
       current_phase := some .TRIAGE,
       crisis_detected := false }, s1)
  | some matched_name =>
    let tool_enum := (toolPick matched_name).1
    let selected_tool_name := (toolPick matched_name).2
    let s1 := update_session_live s
      { selected_tool := some tool_enum,
        current_phase := some .SCREENING,
        responses := some [] } now
    let questions := (f.config.questionnaire selected_tool_name).questions
    match questions with
    | [] =>
      (_get_error_response s1 "list index out of range".data, s1)
    | first_q :: _ =>
      let transition_msg := "I understand. Let\x27s talk a bit more about that. ".data ++ first_q
      let s2 := s1.add_conversation_entry user_message transition_msg .SCREENING now
      ({ ai_response := some transition_msg,
         current_phase := some .SCREENING,
         crisis_detected := false,
         selected_tool := some tool_enum,
         question_number := some 1 }, s2)

/-- `ConversationFlowManager._transition_to_results`.  Runs after the final
response has been appended; in the source the local `session` object is the
same shared object the store mutated, so `get_total_score` already sees the
final answer — here the updated state is passed explicitly. -/
def ConversationFlowManager._transition_to_results (f : ConversationFlowManager)
    (now rand : Nat) (s : SessionData) (user_message : Str) :
    FlowResult × SessionData :=
  let s1 := update_session_live s
    { current_phase := some .RESULTS, completed := some true } now
  let total_score := s1.get_total_score
  match s1.selected_tool with
  | none =>
    (_get_error_response s1 "\x27NoneType\x27 object has no attribute \x27name\x27".data, s1)
  | some tool =>
    let tool_name := tool.name
    let thresholds := (f.config.questionnaire tool_name).thresholds
    let severity0 := severityScan thresholds total_score
    let severity1 := if severity0 == "normal".data then "minimal".data else severity0
    let pick : ResultBand × Str :=
      match pyDictGetOpt f.config.results severity1 with
      | some rc => (rc, severity1)
      | none =>
        if severity1 == "moderately_severe".data then
          ((pyDictGetOpt f.config.results "severe".data).getD {}, "severe".data)
        else
          ((pyDictGetOpt f.config.results "moderate".data).getD {}, severity1)
    let result_config := pick.1
    let severity := pick.2
    let msg := result_config.message
    let suggestions := result_config.suggestions
    let sugg_text :=
      if suggestions.isEmpty then ([] : Str)
      else "\n\nSuggestion: ".data ++ suggestions.getD (rand % suggestions.length) []
    let full_response := msg ++ sugg_text
    let s2 := s1.add_conversation_entry user_message full_response .RESULTS now
    ({ ai_response := some full_response,
       current_phase := some .RESULTS,
       crisis_detected := false,
       total_score := some total_score,
       severity_level := some severity,
       completed := some true }, s2)

/-- `ConversationFlowManager._handle_screening_phase`. -/
def ConversationFlowManager._handle_screening_phase (f : ConversationFlowManager)
    (now rand : Nat) (s : SessionData) (user_message : Str) :
    FlowResult × SessionData :=
  match s.selected_tool with
  | none => f._handle_unknown_phase now s user_message
  | some tool =>
    let tool_name := tool.name
    let questions := (f.config.questionnaire tool_name).questions
    let current_idx := s.responses.length
    match f._map_response_to_score user_message tool_name with
    | none =>
      (_get_error_response s "\x27NoneType\x27 object has no attribute \x27get\x27".data, s)
    | some score =>
      if score = -1 then
        let clarify_msg := f.config.clarifyPrompt.getD "Could you clarify?".data
        let s1 := s.add_conversation_entry user_message clarify_msg .SCREENING now
        ({ ai_response := some clarify_msg,
           current_phase := some .SCREENING,
           crisis_detected := false }, s1)
      else
        let crisis_idx := (f.config.questionnaire tool_name).crisisQuestionIndex
        if tool_name == "PHQ9".data && crisis_idx == some current_idx && score > 0 then
          f._handle_phq9_q9_crisis now s user_message score
        else
          let qid := pyLower tool_name ++ "_".data ++ Nat.toDigits 10 (current_idx + 1)
          let s1 := s.add_response qid user_message score now
          let next_idx := current_idx + 1
          if h : next_idx < questions.length then
            let next_q := questions[next_idx]
            let s2 := s1.add_conversation_entry user_message next_q .SCREENING now
            ({ ai_response := some next_q,
               current_phase := some .SCREENING,
               crisis_detected := false,
               question_number := some (next_idx + 1) }, s2)
          else
            f._transition_to_results now rand s1 user_message

/-- `ConversationFlowManager.process_user_message`, for a live session: the
initial `get_session` has succeeded (the claims quantify over live sessions),
and all store round-trips inside one call are inlined as state passing on
that session. -/
def ConversationFlowManager.process_user_message (f : ConversationFlowManager)
    (now rand : Nat) (s : SessionData) (user_message : Str) :
    FlowResult × SessionData :=
  let crisis_response := f.safety_monitor.check_for_crisis (some user_message)
  if crisis_response.requires_override then
    f._handle_crisis_response now s user_message crisis_response
  else if s.crisis_detected then
    ({ ai_response := some f.safety_monitor._get_crisis_message,
       current_phase := some .CRISIS_RESPONSE,
       crisis_detected := true,
       next_action := some "stop".data }, s)
  else
    match s.current_phase with
    | .GREETING => f._handle_greeting_phase now s user_message
    | .TRIAGE => f._handle_triage_phase now s user_message
    | .SCREENING => f._handle_screening_phase now rand s user_message
    | .RESULTS =>
      ({ ai_response := some (f.config.exitResponse.getD "Take care.".data),
         current_phase := some .RESULTS,
         crisis_detected := false }, s)
    | .CRISIS_RESPONSE =>
      ({ ai_response := some f.safety_monitor._get_crisis_message,
         current_phase := some .CRISIS_RESPONSE,
         crisis_detected := true }, s)

/-- A freshly created `SessionData` (all dataclass defaults). -/
def newSessionData (sid now : Nat) : SessionData :=
  { session_id := sid, start_time := now, last_activity := now }

/-- Run a sequence of `process_user_message` calls on one live session;
each element is `(user_message, now, rand)`. -/
def runMessages (f : ConversationFlowManager) :
    SessionData → List (Str × Nat × Nat) → SessionData
  | s, [] => s
  | s, (msg, now, rand) :: rest =>
    runMessages f (f.process_user_message now rand s msg).2 rest

/-- `(cfg.questionnaire t.name).questions.length`: the question count the
screening handler sees for tool `t`. -/
def toolQuestionCount (cfg : BotConfig) (t : ScreeningTool) : Nat :=
  (cfg.questionnaire t.name).questions.length

/-- `responses` never exceeds the selected tool's question count (and is
empty while no tool is selected). -/
def respBound (cfg : BotConfig) (s : SessionData) : Prop :=
  match s.selected_tool with
  | none => s.responses = []
  | some t => s.responses.length ≤ toolQuestionCount cfg t

/-- Inductive invariant for `process_user_message` sequences: before a tool
is picked no responses exist; during SCREENING strictly fewer responses than
questions exist; afterwards the count is bounded by the question count. -/
def flowInv (cfg : BotConfig) (s : SessionData) : Prop :=
  match s.current_phase with
  | .GREETING => s.responses = []
  | .TRIAGE => s.responses = []
  | .SCREENING => ∃ t, s.selected_tool = some t ∧ s.responses.length < toolQuestionCount cfg t
  | .RESULTS => respBound cfg s
  | .CRISIS_RESPONSE => respBound cfg s

/-- The severity name `_transition_to_results` reports: first threshold band
containing the total (falling back to the scan's `"minimal"` initialiser),
then the `"normal" → "minimal"` rename, then — only when that name is absent
from the `results` table — the `"moderately_severe" → "severe"` rename. -/
def reportedSeverity (cfg : BotConfig) (tool_name : Str) (total : Int) : Str :=
  let severity0 := severityScan (cfg.questionnaire tool_name).thresholds total
  let severity1 := if severity0 == "normal".data then "minimal".data else severity0
  match pyDictGetOpt cfg.results severity1 with
  | some _ => severity1
  | none =>
    if severity1 == "moderately_severe".data then "severe".data else severity1

/-! ### Concrete instances used by counterexamples and witnesses -/

/-- A monitor with one crisis trigger. -/
def exMonitor : SafetyMonitor := ⟨["kill myself".data], "CRISIS HELP".data⟩

/-- A monitor with no configured triggers (the override never fires). -/
def quietMonitor : SafetyMonitor := ⟨[], "CRISIS HELP".data⟩

/-- A configuration whose GAD7 questionnaire defines a crisis question index
(question 0) and whose threshold list has no band containing the total 0. -/
def exCfg : BotConfig :=
  { welcome := some "Welcome!".data,
    yesKeywords := ["yes".data],
    moodPrompt := some "How do you feel?".data,
    routing := [("GAD7".data, ["anxious".data])],
    questionnaires := [("GAD7".data, ⟨["g1".data, "g2".data], some 0, [("mild".data, 5, 9)]⟩)],
    standardScale := some
      [("3".data, ["nearly every day".data]), ("2".data, ["more than half".data]),
       ("1".data, ["several days".data]), ("0".data, ["not at all".data])],
    results := [("minimal".data, ⟨"min msg".data, []⟩), ("moderate".data, ⟨"mod msg".data, []⟩)] }

/-- `exCfg` with the quiet monitor. -/
def exFlow : ConversationFlowManager := ⟨exCfg, quietMonitor⟩

/-- `exCfg` with the `exMonitor` triggers. -/
def exFlowArmed : ConversationFlowManager := ⟨exCfg, exMonitor⟩

/-- A session mid-SCREENING on GAD7 with no answers yet. -/
def exScreeningSession : SessionData :=
  { newSessionData 1 0 with
    current_phase := .SCREENING,
    selected_tool := some .GAD7,
    conversation_history := [⟨"x".data, "y".data, .GREETING, 0⟩] }

/-- `exScreeningSession` with the first (of two) GAD7 answers recorded. -/
def exFinalQuestionSession : SessionData :=
  { exScreeningSession with responses := [⟨"gad7_1".data, "not at all".data, 0, 1⟩] }

/-- A session in TRIAGE carrying a stale recorded response. -/
def exStaleTriageSession : SessionData :=
  { newSessionData 1 0 with
    current_phase := .TRIAGE,
    responses := [⟨"stale".data, "z".data, 3, 0⟩] }

/-- `exCfg` rerouted to a tool (`PHQ9`) that has no questionnaire entry, so
its question list resolves to `[]`. -/
def exNoQuestionsCfg : BotConfig :=
  { exCfg with routing := [("PHQ9".data, ["sad".data])] }

/-- Flow manager over `exNoQuestionsCfg`. -/
def exNoQuestionsFlow : ConversationFlowManager := ⟨exNoQuestionsCfg, quietMonitor⟩

/-- A configuration whose PHQ9 questionnaire defines crisis question index 0. -/
def exPhq9Cfg : BotConfig :=
  { exCfg with
    routing := [("PHQ9".data, ["sad".data])],
    questionnaires := [("PHQ9".data, ⟨["p1".data, "p2".data], some 0, [("mild".data, 0, 9)]⟩)] }

/-- Flow manager over `exPhq9Cfg`. -/
def exPhq9Flow : ConversationFlowManager := ⟨exPhq9Cfg, quietMonitor⟩

/-- A session mid-SCREENING on PHQ9 with no answers yet. -/
def exPhq9Session : SessionData :=
  { newSessionData 1 0 with
    current_phase := .SCREENING,
    selected_tool := some .PHQ9,
    conversation_history := [⟨"x".data, "y".data, .GREETING, 0⟩] }

/-- `exCfg` with every screening tool given a nonempty question list. -/
def exWfCfg : BotConfig :=
  { exCfg with
    questionnaires :=
      [("PHQ9".data, ⟨["p1".data], none, []⟩),
       ("GAD7".data, ⟨["g1".data, "g2".data], some 0, [("mild".data, 5, 9)]⟩),
       ("GHQ12".data, ⟨["h1".data], none, []⟩)] }

/-- Flow manager over `exWfCfg`. -/
def exWfFlow : ConversationFlowManager := ⟨exWfCfg, quietMonitor⟩

/-! ### Store operation sequences (for the capacity invariant) -/

/-- One public `SessionManager` operation together with the wall-clock time
at which it runs. -/
inductive StoreOp
  | create (sid now : Nat) (user_name country : Option Str)
  | get (sid now : Nat)
  | update (sid now : Nat) (u : SessionUpdates)
  | addResponse (sid now : Nat) (question_id user_text : Str) (mapped_score : Int)
  | addConversation (sid now : Nat) (user_message ai_response : Str) (phase : ConversationPhase)
  | delete (sid : Nat)
  | sweep (now : Nat)

/-- Apply one store operation (keeping only the store state). -/
def StoreOp.apply (m : SessionManager) : StoreOp → SessionManager
  | .create sid now un co => (m.create_session now sid un co).2
  | .get sid now => (m.get_session now sid).2
  | .update sid now u => (m.update_session now sid u).2
  | .addResponse sid now qid txt sc => (m.add_response now sid qid txt sc).2
  | .addConversation sid now um ar ph => (m.add_conversation now sid um ar ph).2
  | .delete sid => (m.delete_session sid).2
  | .sweep now => (m.cleanup_expired_sessions now).2

/-- Apply a sequence of store operations. -/
def applyOps (m : SessionManager) (ops : List StoreOp) : SessionManager :=
  ops.foldl StoreOp.apply m

/-! ## Theorems -/

/-! ### Projection lemmas for the session mutators -/

@[simp]
theorem add_conv_responses (s : SessionData) (um ar : Str) (ph : ConversationPhase) (now : Nat) :
    (s.add_conversation_entry um ar ph now).responses = s.responses := rfl

@[simp]
theorem add_conv_phase (s : SessionData) (um ar : Str) (ph : ConversationPhase) (now : Nat) :
    (s.add_conversation_entry um ar ph now).current_phase = s.current_phase := rfl

@[simp]
theorem add_conv_tool (s : SessionData) (um ar : Str) (ph : ConversationPhase) (now : Nat) :
    (s.add_conversation_entry um ar ph now).selected_tool = s.selected_tool := rfl

@[simp]
theorem add_conv_completed (s : SessionData) (um ar : Str) (ph : ConversationPhase) (now : Nat) :
    (s.add_conversation_entry um ar ph now).completed = s.completed := rfl

@[simp]
theorem add_conv_crisis (s : SessionData) (um ar : Str) (ph : ConversationPhase) (now : Nat) :
    (s.add_conversation_entry um ar ph now).crisis_detected = s.crisis_detected := rfl

@[simp]
theorem add_conv_history (s : SessionData) (um ar : Str) (ph : ConversationPhase) (now : Nat) :
    (s.add_conversation_entry um ar ph now).conversation_history
      = s.conversation_history ++ [⟨um, ar, ph, now⟩] := rfl

@[simp]
theorem add_resp_responses (s : SessionData) (qid txt : Str) (sc : Int) (now : Nat) :
    (s.add_response qid txt sc now).responses
      = s.responses ++ [⟨qid, txt, sc, now⟩] := rfl

@[simp]
theorem add_resp_phase (s : SessionData) (qid txt : Str) (sc : Int) (now : Nat) :
    (s.add_response qid txt sc now).current_phase = s.current_phase := rfl

@[simp]
theorem add_resp_tool (s : SessionData) (qid txt : Str) (sc : Int) (now : Nat) :
    (s.add_response qid txt sc now).selected_tool = s.selected_tool := rfl

@[simp]
theorem add_resp_completed (s : SessionData) (qid txt : Str) (sc : Int) (now : Nat) :
    (s.add_response qid txt sc now).completed = s.completed := rfl

@[simp]
theorem add_resp_crisis (s : SessionData) (qid txt : Str) (sc : Int) (now : Nat) :
    (s.add_response qid txt sc now).crisis_detected = s.crisis_detected := rfl

@[simp]
theorem live_update_responses (s : SessionData) (u : SessionUpdates) (now : Nat) :
    (update_session_live s u now).responses = s.responses := rfl

@[simp]
theorem live_update_phase (s : SessionData) (u : SessionUpdates) (now : Nat) :
    (update_session_live s u now).current_phase = u.current_phase.getD s.current_phase := rfl

@[simp]
theorem live_update_tool (s : SessionData) (u : SessionUpdates) (now : Nat) :
    (update_session_live s u now).selected_tool
      = match u.selected_tool with
        | some t => some t
        | none => s.selected_tool := rfl

@[simp]
theorem live_update_completed (s : SessionData) (u : SessionUpdates) (now : Nat) :
    (update_session_live s u now).completed = u.completed.getD s.completed := rfl

@[simp]
theorem live_update_crisis (s : SessionData) (u : SessionUpdates) (now : Nat) :
    (update_session_live s u now).crisis_detected
      = u.crisis_detected.getD s.crisis_detected := rfl

@[simp]
theorem live_update_history (s : SessionData) (u : SessionUpdates) (now : Nat) :
    (update_session_live s u now).conversation_history = s.conversation_history := rfl

/-! ### Facts about the crisis detector -/

theorem check_for_crisis_some (m : SafetyMonitor) (t : Str) (ht : t ≠ []) :
    m.check_for_crisis (some t) =
      (if (m.critical_triggers.filter
            (fun trig => pyContains (pyStrip (pyLower t)) (pyLower trig))).isEmpty
       then ⟨CrisisLevel.NONE, [], [], false⟩
       else ⟨CrisisLevel.CRITICAL,
             m.critical_triggers.filter
               (fun trig => pyContains (pyStrip (pyLower t)) (pyLower trig)),
             m.crisis_response_message, true⟩) := by
  simp [SafetyMonitor.check_for_crisis, ht, SafetyMonitor._get_crisis_message]

theorem check_level_iff_override (m : SafetyMonitor) (text : Option Str) :
    (m.check_for_crisis text).level = CrisisLevel.CRITICAL
      ↔ (m.check_for_crisis text).requires_override = true := by
  cases text with
  | none => simp [SafetyMonitor.check_for_crisis]
  | some t =>
    by_cases h : t = []
    · simp [SafetyMonitor.check_for_crisis, h]
    · rw [check_for_crisis_some m t h]
      split <;> simp

theorem check_message_of_override (m : SafetyMonitor) (text : Option Str)
    (h : (m.check_for_crisis text).requires_override = true) :
    (m.check_for_crisis text).message = m.crisis_response_message := by
  cases text with
  | none => simp [SafetyMonitor.check_for_crisis] at h
  | some t =>
    by_cases ht : t = []
    · simp [SafetyMonitor.check_for_crisis, ht] at h
    · rw [check_for_crisis_some m t ht] at h ⊢
      split at h
      · simp at h
      · split
        · simp_all
        · rfl

/-- C3: `check_for_crisis` is total (a total Lean function) and raises no
exceptions: non-string (`none`) or empty input yields level NONE; otherwise
the text is lowercased and trimmed and the result is CRITICAL — carrying the
list of matched triggers and the configured crisis message — exactly when
some configured trigger occurs as a case-insensitive substring of the text,
and NONE otherwise. -/
theorem check_for_crisis_spec (m : SafetyMonitor) :
    m.check_for_crisis none = ⟨CrisisLevel.NONE, [], [], false⟩
    ∧ m.check_for_crisis (some []) = ⟨CrisisLevel.NONE, [], [], false⟩
    ∧ ∀ t : Str, t ≠ [] →
        ((m.check_for_crisis (some t)).level = CrisisLevel.CRITICAL
           ↔ ∃ k ∈ m.critical_triggers, pyContains (pyStrip (pyLower t)) (pyLower k) = true)
        ∧ ((∃ k ∈ m.critical_triggers, pyContains (pyStrip (pyLower t)) (pyLower k) = true) →
            m.check_for_crisis (some t) =
              ⟨CrisisLevel.CRITICAL,
               m.critical_triggers.filter (fun k => pyContains (pyStrip (pyLower t)) (pyLower k)),
               m.crisis_response_message, true⟩)
        ∧ ((¬ ∃ k ∈ m.critical_triggers, pyContains (pyStrip (pyLower t)) (pyLower k) = true) →
            m.check_for_crisis (some t) = ⟨CrisisLevel.NONE, [], [], false⟩) := by
  refine ⟨rfl, rfl, fun t ht => ?_⟩
  have hmem : (m.critical_triggers.filter
      (fun k => pyContains (pyStrip (pyLower t)) (pyLower k))).isEmpty = true
      ↔ ¬ ∃ k ∈ m.critical_triggers, pyContains (pyStrip (pyLower t)) (pyLower k) = true := by
    simp [List.isEmpty_iff, List.filter_eq_nil_iff]
  rw [check_for_crisis_some m t ht]
  by_cases hx : ∃ k ∈ m.critical_triggers, pyContains (pyStrip (pyLower t)) (pyLower k) = true
  · have hne : (m.critical_triggers.filter
        (fun k => pyContains (pyStrip (pyLower t)) (pyLower k))).isEmpty = false := by
      cases hh : (m.critical_triggers.filter
          (fun k => pyContains (pyStrip (pyLower t)) (pyLower k))).isEmpty
      · rfl
      · exact absurd (hmem.mp hh) (not_not.mpr hx)
    simp [hne, hx]
  · have hemp : (m.critical_triggers.filter
        (fun k => pyContains (pyStrip (pyLower t)) (pyLower k))).isEmpty = true :=
      hmem.mpr hx
    simp [hemp, hx]

/-- C3 witness. -/
theorem check_for_crisis_spec_witness :
    exMonitor.check_for_crisis none = ⟨CrisisLevel.NONE, [], [], false⟩
    ∧ exMonitor.check_for_crisis (some []) = ⟨CrisisLevel.NONE, [], [], false⟩
    ∧ (("i will KILL myself ".data : Str) ≠ []
        → ((exMonitor.check_for_crisis (some "i will KILL myself ".data)).level
            = CrisisLevel.CRITICAL
          ↔ ∃ k ∈ exMonitor.critical_triggers,
              pyContains (pyStrip (pyLower "i will KILL myself ".data)) (pyLower k) = true)) := by
  have h := check_for_crisis_spec exMonitor
  exact ⟨h.1, h.2.1, fun hne => ((h.2.2 _ hne).1)⟩

/-- C1: when the detector classifies the inbound text as CRITICAL on a live
session, the session's phase is forced to CRISIS_RESPONSE and
`crisis_detected` set before (and instead of) any phase-specific dispatch —
the prior phase is arbitrary and no screening state (`responses`,
`selected_tool`, `completed`) is touched — the crisis message is appended to
history and returned with the `"stop"` action signal. -/
theorem crisis_override_spec (f : ConversationFlowManager) (now rand : Nat)
    (s : SessionData) (msg : Str)
    (h : (f.safety_monitor.check_for_crisis (some msg)).level = CrisisLevel.CRITICAL) :
    (f.process_user_message now rand s msg).1.current_phase
        = some ConversationPhase.CRISIS_RESPONSE
    ∧ (f.process_user_message now rand s msg).1.crisis_detected = true
    ∧ (f.process_user_message now rand s msg).1.ai_response
        = some f.safety_monitor.crisis_response_message
    ∧ (f.process_user_message now rand s msg).1.next_action = some "stop".data
    ∧ (f.process_user_message now rand s msg).2.current_phase
        = ConversationPhase.CRISIS_RESPONSE
    ∧ (f.process_user_message now rand s msg).2.crisis_detected = true
    ∧ (f.process_user_message now rand s msg).2.conversation_history
        = s.conversation_history
          ++ [⟨msg, f.safety_monitor.crisis_response_message,
               ConversationPhase.CRISIS_RESPONSE, now⟩]
    ∧ (f.process_user_message now rand s msg).2.responses = s.responses
    ∧ (f.process_user_message now rand s msg).2.selected_tool = s.selected_tool
    ∧ (f.process_user_message now rand s msg).2.completed = s.completed := by
  have hov : (f.safety_monitor.check_for_crisis (some msg)).requires_override = true :=
    (check_level_iff_override _ _).mp h
  have hmsg := check_message_of_override _ _ hov
  unfold ConversationFlowManager.process_user_message
  simp [hov, ConversationFlowManager._handle_crisis_response, hmsg]

/-- C1 witness. -/
theorem crisis_override_spec_witness :
    (exFlowArmed.process_user_message 7 0 exFinalQuestionSession
        "i want to kill myself".data).1.current_phase
      = some ConversationPhase.CRISIS_RESPONSE
    ∧ (exFlowArmed.process_user_message 7 0 exFinalQuestionSession
        "i want to kill myself".data).1.crisis_detected = true
    ∧ (exFlowArmed.process_user_message 7 0 exFinalQuestionSession
        "i want to kill myself".data).1.ai_response
      = some exFlowArmed.safety_monitor.crisis_response_message
    ∧ (exFlowArmed.process_user_message 7 0 exFinalQuestionSession
        "i want to kill myself".data).1.next_action = some "stop".data
    ∧ (exFlowArmed.process_user_message 7 0 exFinalQuestionSession
        "i want to kill myself".data).2.current_phase
      = ConversationPhase.CRISIS_RESPONSE
    ∧ (exFlowArmed.process_user_message 7 0 exFinalQuestionSession
        "i want to kill myself".data).2.crisis_detected = true
    ∧ (exFlowArmed.process_user_message 7 0 exFinalQuestionSession
        "i want to kill myself".data).2.conversation_history
      = exFinalQuestionSession.conversation_history
        ++ [⟨"i want to kill myself".data, exFlowArmed.safety_monitor.crisis_response_message,
             ConversationPhase.CRISIS_RESPONSE, 7⟩]
    ∧ (exFlowArmed.process_user_message 7 0 exFinalQuestionSession
        "i want to kill myself".data).2.responses = exFinalQuestionSession.responses
    ∧ (exFlowArmed.process_user_message 7 0 exFinalQuestionSession
        "i want to kill myself".data).2.selected_tool = exFinalQuestionSession.selected_tool
    ∧ (exFlowArmed.process_user_message 7 0 exFinalQuestionSession
        "i want to kill myself".data).2.completed = exFinalQuestionSession.completed :=
  crisis_override_spec exFlowArmed 7 0 exFinalQuestionSession
    "i want to kill myself".data (by decide)

/-- C2: once a session's `crisis_detected` flag is true, every subsequent
`process_user_message` call returns phase CRISIS_RESPONSE and the crisis
message whatever the input text, keeps the flag set, and performs no
phase-specific action (`responses`, `selected_tool`, `completed` are all
unchanged) — CRISIS_RESPONSE is absorbing until an external reset. -/
theorem crisis_absorbing_spec (f : ConversationFlowManager) (now rand : Nat)
    (s : SessionData) (msg : Str) (h : s.crisis_detected = true) :
    (f.process_user_message now rand s msg).1.current_phase
        = some ConversationPhase.CRISIS_RESPONSE
    ∧ (f.process_user_message now rand s msg).1.ai_response
        = some f.safety_monitor.crisis_response_message
    ∧ (f.process_user_message now rand s msg).1.crisis_detected = true
    ∧ (f.process_user_message now rand s msg).2.crisis_detected = true
    ∧ (f.process_user_message now rand s msg).2.responses = s.responses
    ∧ (f.process_user_message now rand s msg).2.selected_tool = s.selected_tool
    ∧ (f.process_user_message now rand s msg).2.completed = s.completed := by
  unfold ConversationFlowManager.process_user_message
  by_cases hov : (f.safety_monitor.check_for_crisis (some msg)).requires_override = true
  · have hmsg := check_message_of_override _ _ hov
    simp [hov, ConversationFlowManager._handle_crisis_response, hmsg]
  · simp only [Bool.not_eq_true] at hov
    simp [hov, h, SafetyMonitor._get_crisis_message]

/-! ### Association-list lemmas for the session store -/

theorem dictGet_cons {α : Type} (p : Nat × α) (t : List (Nat × α)) (k : Nat) :
    dictGet (p :: t) k = if p.1 = k then some p.2 else dictGet t k := by
  by_cases h : p.1 = k <;> simp [dictGet, List.find?_cons, h]

theorem dictGet_eq_none_of_not_mem {α : Type} {l : List (Nat × α)} {k : Nat}
    (h : k ∉ l.map Prod.fst) : dictGet l k = none := by
  unfold dictGet
  rw [List.find?_eq_none.mpr]
  · rfl
  · intro x hx
    simp only [beq_iff_eq]
    exact fun hk => h (hk ▸ List.mem_map_of_mem Prod.fst hx)

theorem key_mem_of_dictGet {α : Type} {l : List (Nat × α)} {k : Nat} {v : α}
    (h : dictGet l k = some v) : k ∈ l.map Prod.fst := by
  by_contra hk
  rw [dictGet_eq_none_of_not_mem hk] at h
  exact Option.noConfusion h

theorem dictGet_some_any {α : Type} {l : List (Nat × α)} {k : Nat} {v : α}
    (h : dictGet l k = some v) : l.any (fun p => p.1 == k) = true := by
  unfold dictGet at h
  cases hf : l.find? (fun p => p.1 == k) with
  | none => rw [hf] at h; exact Option.noConfusion h
  | some p =>
    have hp := List.find?_some (p := fun q : Nat × α => q.1 == k) hf
    exact List.any_eq_true.mpr ⟨p, List.mem_of_find?_eq_some hf, hp⟩

theorem dictGet_dictSet_self {α : Type} (l : List (Nat × α)) (k : Nat) (v : α) :
    dictGet (dictSet l k v) k = some v := by
  induction l with
  | nil => simp [dictSet, dictGet_cons]
  | cons p t ih =>
    by_cases h : p.1 = k
    · simp [dictSet, h, dictGet_cons]
    · simp [dictSet, h, dictGet_cons, ih]

theorem length_dictSet_le {α : Type} (l : List (Nat × α)) (k : Nat) (v : α) :
    (dictSet l k v).length ≤ l.length + 1 := by
  induction l with
  | nil => simp [dictSet]
  | cons p t ih =>
    by_cases h : p.1 = k
    · simp [dictSet, h]
    · simp only [dictSet, h, if_false, List.length_cons]
      omega

theorem length_dictSet_of_key_mem {α : Type} {l : List (Nat × α)} {k : Nat} (v : α)
    (h : k ∈ l.map Prod.fst) : (dictSet l k v).length = l.length := by
  induction l with
  | nil => simp at h
  | cons p t ih =>
    by_cases hp : p.1 = k
    · simp [dictSet, hp]
    · simp only [List.map_cons, List.mem_cons] at h
      rcases h with h | h
      · exact absurd h.symm hp
      · simp [dictSet, hp, ih h]

theorem length_dictErase_le {α : Type} (l : List (Nat × α)) (k : Nat) :
    (dictErase l k).length ≤ l.length :=
  List.length_eraseP_le l

theorem keys_filter_subset {α : Type} {l : List (Nat × α)} {pr : Nat × α → Bool} {k : Nat}
    (h : k ∈ (l.filter pr).map Prod.fst) : k ∈ l.map Prod.fst := by
  rcases List.mem_map.mp h with ⟨q, hq, hqk⟩
  exact hqk ▸ List.mem_map_of_mem Prod.fst (List.mem_of_mem_filter hq)

theorem dictGet_dictErase_self {α : Type} {l : List (Nat × α)} {k : Nat}
    (hnd : (l.map Prod.fst).Nodup) : dictGet (dictErase l k) k = none := by
  induction l with
  | nil => rfl
  | cons p t ih =>
    simp only [List.map_cons, List.nodup_cons] at hnd
    by_cases hp : p.1 = k
    · have he : dictErase (p :: t) k = t := by
        simp [dictErase, List.eraseP_cons, hp]
      rw [he]
      exact dictGet_eq_none_of_not_mem (hp ▸ hnd.1)
    · have he : dictErase (p :: t) k = p :: dictErase t k := by
        simp [dictErase, List.eraseP_cons, hp]
      rw [he, dictGet_cons, if_neg hp]
      exact ih hnd.2

theorem dictGet_filter {α : Type} {l : List (Nat × α)} {k : Nat} {v : α}
    (pr : Nat × α → Bool) (hnd : (l.map Prod.fst).Nodup)
    (h : dictGet l k = some v) :
    dictGet (l.filter pr) k = if pr (k, v) then some v else none := by
  induction l with
  | nil => simp [dictGet] at h
  | cons p t ih =>
    rw [dictGet_cons] at h
    simp only [List.map_cons, List.nodup_cons] at hnd
    by_cases hp : p.1 = k
    · rw [if_pos hp] at h
      have hpv : p = (k, v) := by
        obtain ⟨p1, p2⟩ := p
        simp only at hp
        simp only [Option.some.injEq] at h
        simp [hp, h]
      subst hpv
      cases hpr : pr (k, v) with
      | true =>
        rw [List.filter_cons_of_pos hpr, dictGet_cons]
        simp
      | false =>
        rw [List.filter_cons_of_neg (by simp [hpr])]
        simp only [hpr, Bool.false_eq_true, if_false]
        exact dictGet_eq_none_of_not_mem (fun hk => hnd.1 (keys_filter_subset hk))
    · rw [if_neg hp] at h
      cases hpr : pr p with
      | true =>
        rw [List.filter_cons_of_pos hpr, dictGet_cons, if_neg hp]
        exact ih hnd.2 h
      | false =>
        rw [List.filter_cons_of_neg (by simp [hpr])]
        exact ih hnd.2 h

/-- C10: `delete_session` returns true whenever the id is present in the
table — it applies no expiry check — so an id whose session is already past
the idle timeout (which `get_session` would report absent and delete) is
still deleted with result true. -/
theorem delete_session_ignores_expiry (m : SessionManager) (sid now : Nat)
    (s : SessionData) (hfind : dictGet m.sessions sid = some s) :
    (m.delete_session sid).1 = true
    ∧ (s.is_expired m.timeout_minutes now = true →
        (m.get_session now sid).1 = none) := by
  constructor
  · simp [SessionManager.delete_session, dictGet_some_any hfind]
  · intro hexp
    simp [SessionManager.get_session, hfind, hexp]

/-- C10 witness: a session idle past the timeout is absent to `get_session`
yet `delete_session` still returns true. -/
theorem delete_session_ignores_expiry_witness :
    ((⟨5, 10, [(1, newSessionData 1 0)]⟩ : SessionManager).delete_session 1).1 = true
    ∧ ((newSessionData 1 0).is_expired 5 99 = true →
        ((⟨5, 10, [(1, newSessionData 1 0)]⟩ : SessionManager).get_session 99 1).1 = none) :=
  delete_session_ignores_expiry ⟨5, 10, [(1, newSessionData 1 0)]⟩ 1 99
    (newSessionData 1 0) (by decide)

/-- C4: `get_session` on a session idle longer than the timeout deletes it
and reports absent; on a session idle within the timeout
(`now − lastActivity ≤ timeout`) it refreshes `last_activity` and returns
the session, so a later lookup within a fresh timeout window still succeeds;
and the lazy get-time expiry check and the background sweep
(`cleanup_expired_sessions`) agree on the same `is_expired` comparison. -/
theorem get_session_expiry_spec (m : SessionManager) (sid now now2 : Nat)
    (s : SessionData) (hnd : (m.sessions.map Prod.fst).Nodup)
    (hfind : dictGet m.sessions sid = some s) :
    (s.last_activity + m.timeout_minutes < now →
      (m.get_session now sid).1 = none
      ∧ dictGet (m.get_session now sid).2.sessions sid = none)
    ∧ (now ≤ s.last_activity + m.timeout_minutes →
      (m.get_session now sid).1 = some (s.update_activity now)
      ∧ (now2 ≤ now + m.timeout_minutes →
          ((m.get_session now sid).2.get_session now2 sid).1
            = some ((s.update_activity now).update_activity now2)))
    ∧ dictGet (m.cleanup_expired_sessions now).2.sessions sid
        = (if s.is_expired m.timeout_minutes now then none else some s) := by
  refine ⟨fun hexp => ?_, fun hlive => ?_, ?_⟩
  · have he : s.is_expired m.timeout_minutes now = true := by
      simp [SessionData.is_expired]; omega
    constructor
    · simp [SessionManager.get_session, hfind, he]
    · simp only [SessionManager.get_session, hfind, he, if_true]
      exact dictGet_dictErase_self hnd
  · have he : s.is_expired m.timeout_minutes now = false := by
      simp [SessionData.is_expired]; omega
    constructor
    · simp [SessionManager.get_session, hfind, he]
    · intro hfresh
      have hget2 : dictGet (m.get_session now sid).2.sessions sid
          = some (s.update_activity now) := by
        simp only [SessionManager.get_session, hfind, he, if_false]
        exact dictGet_dictSet_self _ _ _
      have htm : (m.get_session now sid).2.timeout_minutes = m.timeout_minutes := by
        simp [SessionManager.get_session, hfind, he]
      have he2 : (s.update_activity now).is_expired m.timeout_minutes now2 = false := by
        simp [SessionData.is_expired, SessionData.update_activity]; omega
      generalize hg : (m.get_session now sid).2 = m2 at hget2 htm ⊢
      simp [SessionManager.get_session, hget2, htm, he2]
  · have := dictGet_filter
      (fun p => !p.2.is_expired m.timeout_minutes now) hnd hfind
    simp only [SessionManager.cleanup_expired_sessions]
    rw [this]
    cases he : s.is_expired m.timeout_minutes now <;> simp [he]

/-- C4 witness. -/
theorem get_session_expiry_spec_witness :
    ((newSessionData 1 0).last_activity + 5 < 99 →
      ((⟨5, 10, [(1, newSessionData 1 0)]⟩ : SessionManager).get_session 99 1).1 = none
      ∧ dictGet ((⟨5, 10, [(1, newSessionData 1 0)]⟩ : SessionManager).get_session 99 1).2.sessions 1
          = none)
    ∧ (99 ≤ (newSessionData 1 0).last_activity + 5 →
      ((⟨5, 10, [(1, newSessionData 1 0)]⟩ : SessionManager).get_session 99 1).1
        = some ((newSessionData 1 0).update_activity 99)
      ∧ (103 ≤ 99 + 5 →
          (((⟨5, 10, [(1, newSessionData 1 0)]⟩ : SessionManager).get_session 99 1).2.get_session 103 1).1
            = some (((newSessionData 1 0).update_activity 99).update_activity 103)))
    ∧ dictGet ((⟨5, 10, [(1, newSessionData 1 0)]⟩ : SessionManager).cleanup_expired_sessions 99).2.sessions 1
        = (if (newSessionData 1 0).is_expired 5 99 then none else some (newSessionData 1 0)) :=
  get_session_expiry_spec ⟨5, 10, [(1, newSessionData 1 0)]⟩ 1 99 103
    (newSessionData 1 0) (by decide) (by decide)

/-! ### Store capacity lemmas -/

theorem oldestGo_mem (best : Nat × SessionData) (t : List (Nat × SessionData)) :
    oldestGo best t = best ∨ oldestGo best t ∈ t := by
  induction t generalizing best with
  | nil => exact Or.inl rfl
  | cons q t ih =>
    simp only [oldestGo]
    split
    · rcases ih q with h | h
      · exact Or.inr (by rw [h]; exact List.mem_cons_self q t)
      · exact Or.inr (List.mem_cons_of_mem q h)
    · rcases ih best with h | h
      · exact Or.inl h
      · exact Or.inr (List.mem_cons_of_mem q h)

theorem oldestGo_min (t : List (Nat × SessionData)) (best : Nat × SessionData) :
    (oldestGo best t).2.last_activity ≤ best.2.last_activity
    ∧ ∀ q ∈ t, (oldestGo best t).2.last_activity ≤ q.2.last_activity := by
  induction t generalizing best with
  | nil => exact ⟨le_refl _, by simp⟩
  | cons r t ih =>
    simp only [oldestGo]
    by_cases hlt : r.2.last_activity < best.2.last_activity
    · rw [if_pos hlt]
      refine ⟨le_trans (ih r).1 (le_of_lt hlt), fun q hq => ?_⟩
      rcases List.mem_cons.mp hq with h | h
      · exact h ▸ (ih r).1
      · exact (ih r).2 q h
    · rw [if_neg hlt]
      refine ⟨(ih best).1, fun q hq => ?_⟩
      rcases List.mem_cons.mp hq with h | h
      · exact h ▸ le_trans (ih best).1 (le_of_not_lt hlt)
      · exact (ih best).2 q h

theorem oldestEntry_spec (l : List (Nat × SessionData)) (hne : l ≠ []) :
    ∃ p, oldestEntry l = some p ∧ p ∈ l
      ∧ ∀ q ∈ l, p.2.last_activity ≤ q.2.last_activity := by
  cases l with
  | nil => exact absurd rfl hne
  | cons p t =>
    refine ⟨oldestGo p t, rfl, ?_, fun q hq => ?_⟩
    · rcases oldestGo_mem p t with h | h
      · rw [h]; exact List.mem_cons_self p t
      · exact List.mem_cons_of_mem p h
    · rcases List.mem_cons.mp hq with h | h
      · exact h ▸ (oldestGo_min t p).1
      · exact (oldestGo_min t p).2 q h

theorem cleanup_inv (m : SessionManager) (now : Nat) :
    (m.cleanup_expired_sessions now).2.max_sessions = m.max_sessions
    ∧ (m.cleanup_expired_sessions now).2.timeout_minutes = m.timeout_minutes
    ∧ (m.cleanup_expired_sessions now).2.sessions.length ≤ m.sessions.length :=
  ⟨rfl, rfl, m.sessions.length_filter_le _⟩

theorem get_session_snd_inv (m : SessionManager) (now sid : Nat) :
    (m.get_session now sid).2.max_sessions = m.max_sessions
    ∧ (m.get_session now sid).2.timeout_minutes = m.timeout_minutes
    ∧ (m.get_session now sid).2.sessions.length ≤ m.sessions.length := by
  unfold SessionManager.get_session
  rcases hd : dictGet m.sessions sid with _ | s
  · simp [hd]
  · simp only [hd]
    split
    · exact ⟨rfl, rfl, length_dictErase_le _ _⟩
    · exact ⟨rfl, rfl,
        le_of_eq (length_dictSet_of_key_mem _ (key_mem_of_dictGet hd))⟩

theorem get_session_some_get (m : SessionManager) (now sid : Nat) (s' : SessionData)
    (h : (m.get_session now sid).1 = some s') :
    dictGet (m.get_session now sid).2.sessions sid = some s' := by
  unfold SessionManager.get_session at h ⊢
  rcases hd : dictGet m.sessions sid with _ | s
  · simp [hd] at h
  · simp only [hd] at h ⊢
    split at h
    · simp at h
    · simp only at h ⊢
      rw [if_neg (by simp_all)]
      simp only [Option.some.injEq] at h
      rw [h] at *
      exact dictGet_dictSet_self _ _ _

theorem mutate_live_inv (m : SessionManager) (now sid : Nat)
    (g : SessionData → SessionData) :
    (m.mutate_live now sid g).2.max_sessions = m.max_sessions
    ∧ (m.mutate_live now sid g).2.sessions.length ≤ m.sessions.length := by
  unfold SessionManager.mutate_live
  rcases hg : m.get_session now sid with ⟨os, m'⟩
  have hmax : m'.max_sessions = m.max_sessions := by
    have := (get_session_snd_inv m now sid).1
    rw [hg] at this
    exact this
  have hlen : m'.sessions.length ≤ m.sessions.length := by
    have := (get_session_snd_inv m now sid).2.2
    rw [hg] at this
    exact this
  cases os with
  | none => exact ⟨hmax, hlen⟩
  | some s =>
    refine ⟨hmax, ?_⟩
    have hget : dictGet m'.sessions sid = some s := by
      have := get_session_some_get m now sid s (by rw [hg])
      rw [hg] at this
      exact this
    simp only
    rw [length_dictSet_of_key_mem _ (key_mem_of_dictGet hget)]
    exact hlen

theorem create_session_inv (m : SessionManager) (now sid : Nat) (un co : Option Str)
    (hmax : 1 ≤ m.max_sessions) (hc : m.sessions.length ≤ m.max_sessions) :
    (m.create_session now sid un co).2.max_sessions = m.max_sessions
    ∧ (m.create_session now sid un co).2.sessions.length ≤ m.max_sessions := by
  unfold SessionManager.create_session
  by_cases h1 : m.sessions.length ≥ m.max_sessions
  · simp only [h1, if_true]
    have hm1max := (cleanup_inv m now).1
    have hm1len : (m.cleanup_expired_sessions now).2.sessions.length ≤ m.max_sessions :=
      le_trans (cleanup_inv m now).2.2 hc
    by_cases h2 : (m.cleanup_expired_sessions now).2.sessions.length
        ≥ (m.cleanup_expired_sessions now).2.max_sessions
    · simp only [h2, if_true]
      have hne : (m.cleanup_expired_sessions now).2.sessions ≠ [] := by
        intro hnil
        rw [hnil] at h2
        simp only [List.length_nil, hm1max] at h2
        omega
      rcases oldestEntry_spec _ hne with ⟨p, hp, hmem, _⟩
      simp only [hp]
      refine ⟨rfl, ?_⟩
      have herase : (dictErase (m.cleanup_expired_sessions now).2.sessions p.1).length + 1
          = (m.cleanup_expired_sessions now).2.sessions.length :=
        List.length_eraseP_add_one hmem (by simp)
      have := length_dictSet_le
        (dictErase (m.cleanup_expired_sessions now).2.sessions p.1) sid
        { session_id := sid, user_name := un, country := co,
          start_time := now, last_activity := now }
      omega
    · rw [if_neg h2]
      refine ⟨rfl, ?_⟩
      dsimp only
      have := length_dictSet_le (m.cleanup_expired_sessions now).2.sessions sid
        { session_id := sid, user_name := un, country := co,
          start_time := now, last_activity := now }
      rw [hm1max] at h2
      omega
  · simp only [h1, if_false]
    refine ⟨trivial, ?_⟩
    dsimp only
    have := length_dictSet_le m.sessions sid
      { session_id := sid, user_name := un, country := co,
        start_time := now, last_activity := now }
    omega

theorem apply_inv (m : SessionManager) (op : StoreOp)
    (hmax : 1 ≤ m.max_sessions) (hc : m.sessions.length ≤ m.max_sessions) :
    (op.apply m).max_sessions = m.max_sessions
    ∧ (op.apply m).sessions.length ≤ m.max_sessions := by
  cases op with
  | create sid now un co => exact create_session_inv m now sid un co hmax hc
  | get sid now =>
    exact ⟨(get_session_snd_inv m now sid).1,
      le_trans (get_session_snd_inv m now sid).2.2 hc⟩
  | update sid now u =>
    exact ⟨(mutate_live_inv m now sid _).1, le_trans (mutate_live_inv m now sid _).2 hc⟩
  | addResponse sid now qid txt sc =>
    exact ⟨(mutate_live_inv m now sid _).1, le_trans (mutate_live_inv m now sid _).2 hc⟩
  | addConversation sid now um ar ph =>
    exact ⟨(mutate_live_inv m now sid _).1, le_trans (mutate_live_inv m now sid _).2 hc⟩
  | delete sid =>
    show (m.delete_session sid).2.max_sessions = m.max_sessions
      ∧ (m.delete_session sid).2.sessions.length ≤ m.max_sessions
    unfold SessionManager.delete_session
    split
    · exact ⟨rfl, le_trans (length_dictErase_le _ _) hc⟩
    · exact ⟨rfl, hc⟩
  | sweep now =>
    exact ⟨(cleanup_inv m now).1, le_trans (cleanup_inv m now).2.2 hc⟩

theorem applyOps_inv (m : SessionManager) (ops : List StoreOp)
    (hmax : 1 ≤ m.max_sessions) (hc : m.sessions.length ≤ m.max_sessions) :
    (applyOps m ops).max_sessions = m.max_sessions
    ∧ (applyOps m ops).sessions.length ≤ m.max_sessions := by
  induction ops generalizing m with
  | nil => exact ⟨rfl, hc⟩
  | cons op rest ih =>
    have h := apply_inv m op hmax hc
    have hrec := ih (op.apply m) (h.1 ▸ hmax) (h.1 ▸ h.2)
    exact ⟨hrec.1.trans h.1, h.1 ▸ hrec.2⟩

/-- C5: with `max_sessions ≥ 1`, (i) the store never holds more than
`max_sessions` sessions across any sequence of operations starting from the
empty store, and (ii) a `create_session` issued while the store is at the
limit first runs the expiry sweep and, if still at the limit, evicts exactly
the single session with the oldest `last_activity` (first such in insertion
order) before inserting the new session. -/
theorem session_capacity_spec (timeout maxs : Nat) (ops : List StoreOp)
    (m : SessionManager) (now sid : Nat) (un co : Option Str)
    (hmaxs : 1 ≤ maxs)
    (hm : 1 ≤ m.max_sessions)
    (hat : m.max_sessions ≤ m.sessions.length)
    (hstill : m.max_sessions ≤ (m.cleanup_expired_sessions now).2.sessions.length) :
    (applyOps ⟨timeout, maxs, []⟩ ops).sessions.length ≤ maxs
    ∧ ∃ p, oldestEntry (m.cleanup_expired_sessions now).2.sessions = some p
        ∧ p ∈ (m.cleanup_expired_sessions now).2.sessions
        ∧ (∀ q ∈ (m.cleanup_expired_sessions now).2.sessions,
            p.2.last_activity ≤ q.2.last_activity)
        ∧ (m.create_session now sid un co).2.sessions
            = dictSet (dictErase (m.cleanup_expired_sessions now).2.sessions p.1) sid
                { session_id := sid, user_name := un, country := co,
                  start_time := now, last_activity := now } := by
  constructor
  · exact (applyOps_inv ⟨timeout, maxs, []⟩ ops hmaxs (by simp)).2
  · have hne : (m.cleanup_expired_sessions now).2.sessions ≠ [] := by
      intro hnil
      rw [hnil] at hstill
      simp only [List.length_nil] at hstill
      omega
    rcases oldestEntry_spec _ hne with ⟨p, hp, hmem, hmin⟩
    refine ⟨p, hp, hmem, hmin, ?_⟩
    unfold SessionManager.create_session
    have h1 : m.sessions.length ≥ m.max_sessions := hat
    have h2 : (m.cleanup_expired_sessions now).2.sessions.length
        ≥ (m.cleanup_expired_sessions now).2.max_sessions := by
      rw [(cleanup_inv m now).1]
      exact hstill
    simp only [h1, if_true, h2, hp]

/-- C5 witness. -/
theorem session_capacity_spec_witness :
    (applyOps ⟨5, 1, []⟩ [.create 1 0 none none, .create 2 0 none none]).sessions.length ≤ 1
    ∧ ∃ p, oldestEntry ((⟨5, 1, [(1, newSessionData 1 0)]⟩ : SessionManager).cleanup_expired_sessions 3).2.sessions
          = some p
        ∧ p ∈ ((⟨5, 1, [(1, newSessionData 1 0)]⟩ : SessionManager).cleanup_expired_sessions 3).2.sessions
        ∧ (∀ q ∈ ((⟨5, 1, [(1, newSessionData 1 0)]⟩ : SessionManager).cleanup_expired_sessions 3).2.sessions,
            p.2.last_activity ≤ q.2.last_activity)
        ∧ ((⟨5, 1, [(1, newSessionData 1 0)]⟩ : SessionManager).create_session 3 2 none none).2.sessions
            = dictSet (dictErase ((⟨5, 1, [(1, newSessionData 1 0)]⟩ : SessionManager).cleanup_expired_sessions 3).2.sessions p.1) 2
                { session_id := 2, user_name := none, country := none,
                  start_time := 3, last_activity := 3 } :=
  session_capacity_spec 5 1 [.create 1 0 none none, .create 2 0 none none]
    ⟨5, 1, [(1, newSessionData 1 0)]⟩ 3 2 none none
    (by decide) (by decide) (by decide) (by decide)

/-- C2 witness. -/
theorem crisis_absorbing_spec_witness :
    (exFlow.process_user_message 9 0
        { exFinalQuestionSession with crisis_detected := true } "yes".data).1.current_phase
      = some ConversationPhase.CRISIS_RESPONSE
    ∧ (exFlow.process_user_message 9 0
        { exFinalQuestionSession with crisis_detected := true } "yes".data).1.ai_response
      = some exFlow.safety_monitor.crisis_response_message
    ∧ (exFlow.process_user_message 9 0
        { exFinalQuestionSession with crisis_detected := true } "yes".data).1.crisis_detected
      = true
    ∧ (exFlow.process_user_message 9 0
        { exFinalQuestionSession with crisis_detected := true } "yes".data).2.crisis_detected
      = true
    ∧ (exFlow.process_user_message 9 0
        { exFinalQuestionSession with crisis_detected := true } "yes".data).2.responses
      = ({ exFinalQuestionSession with crisis_detected := true } : SessionData).responses
    ∧ (exFlow.process_user_message 9 0
        { exFinalQuestionSession with crisis_detected := true } "yes".data).2.selected_tool
      = ({ exFinalQuestionSession with crisis_detected := true } : SessionData).selected_tool
    ∧ (exFlow.process_user_message 9 0
        { exFinalQuestionSession with crisis_detected := true } "yes".data).2.completed
      = ({ exFinalQuestionSession with crisis_detected := true } : SessionData).completed :=
  crisis_absorbing_spec exFlow 9 0
    { exFinalQuestionSession with crisis_detected := true } "yes".data (by decide)

/-- C6 counterexample: a tool other than PHQ9 (here GAD7) that defines a
crisis question index, answered at that index with a mapped score of 2 > 0,
is NOT routed to crisis handling — the session simply advances to the next
question, because the source gates the check on `tool_name == "PHQ9"`. -/
theorem crisis_question_counterexample :
    (exCfg.questionnaire "GAD7".data).crisisQuestionIndex
        = some exScreeningSession.responses.length
    ∧ exFlow._map_response_to_score "more than half".data "GAD7".data = some 2
    ∧ (exFlow.process_user_message 5 0 exScreeningSession
        "more than half".data).1.current_phase = some ConversationPhase.SCREENING
    ∧ (exFlow.process_user_message 5 0 exScreeningSession
        "more than half".data).1.crisis_detected = false
    ∧ (exFlow.process_user_message 5 0 exScreeningSession
        "more than half".data).2.current_phase = ConversationPhase.SCREENING
    ∧ (exFlow.process_user_message 5 0 exScreeningSession
        "more than half".data).2.crisis_detected = false :=
  ⟨rfl, rfl, rfl, rfl, rfl, rfl⟩

/-- C6 (amended): for a session in SCREENING on PHQ9, when the config
defines a crisis question index equal to the index of the question just
answered and the mapped score is > 0 (and neither the crisis override nor
the absorbing flag is active), the response is still recorded — appended to
`responses` with question id `"phq9_9"` — `crisis_detected` is set and the
session moves to CRISIS_RESPONSE instead of advancing. -/
theorem phq9_crisis_question_spec (f : ConversationFlowManager) (now rand : Nat)
    (s : SessionData) (msg : Str) (score : Int)
    (hph : s.current_phase = ConversationPhase.SCREENING)
    (htool : s.selected_tool = some ScreeningTool.PHQ9)
    (hcr : s.crisis_detected = false)
    (hov : (f.safety_monitor.check_for_crisis (some msg)).requires_override = false)
    (hidx : (f.config.questionnaire "PHQ9".data).crisisQuestionIndex
        = some s.responses.length)
    (hscore : f._map_response_to_score msg "PHQ9".data = some score)
    (hpos : 0 < score) :
    (f.process_user_message now rand s msg).1.current_phase
        = some ConversationPhase.CRISIS_RESPONSE
    ∧ (f.process_user_message now rand s msg).1.crisis_detected = true
    ∧ (f.process_user_message now rand s msg).1.crisis_trigger = some "PHQ9_Q9".data
    ∧ (f.process_user_message now rand s msg).2.current_phase
        = ConversationPhase.CRISIS_RESPONSE
    ∧ (f.process_user_message now rand s msg).2.crisis_detected = true
    ∧ (f.process_user_message now rand s msg).2.responses
        = s.responses ++ [⟨"phq9_9".data, msg, score, now⟩] := by
  have hne : (score = -1) = False := by
    simp only [eq_iff_iff, iff_false]
    intro hcontra
    omega
  unfold ConversationFlowManager.process_user_message
  simp only [hov, Bool.false_eq_true, if_false, hcr, hph]
  unfold ConversationFlowManager._handle_screening_phase
  simp only [htool]
  have hname : ScreeningTool.PHQ9.name = "PHQ9".data := rfl
  simp only [hname, hscore, hne, if_false, hidx, hpos,
    ConversationFlowManager._handle_phq9_q9_crisis]
  simp [hpos]

/-- C6 amended-claim witness. -/
theorem phq9_crisis_question_spec_witness :
    (exPhq9Flow.process_user_message 5 0 exPhq9Session
        "more than half".data).1.current_phase = some ConversationPhase.CRISIS_RESPONSE
    ∧ (exPhq9Flow.process_user_message 5 0 exPhq9Session
        "more than half".data).1.crisis_detected = true
    ∧ (exPhq9Flow.process_user_message 5 0 exPhq9Session
        "more than half".data).1.crisis_trigger = some "PHQ9_Q9".data
    ∧ (exPhq9Flow.process_user_message 5 0 exPhq9Session
        "more than half".data).2.current_phase = ConversationPhase.CRISIS_RESPONSE
    ∧ (exPhq9Flow.process_user_message 5 0 exPhq9Session
        "more than half".data).2.crisis_detected = true
    ∧ (exPhq9Flow.process_user_message 5 0 exPhq9Session
        "more than half".data).2.responses
      = exPhq9Session.responses
        ++ [⟨"phq9_9".data, "more than half".data, 2, 5⟩] :=
  phq9_crisis_question_spec exPhq9Flow 5 0 exPhq9Session "more than half".data 2
    rfl rfl rfl rfl rfl rfl (by decide)

/-- C7 counterexample: a total (0) contained in no threshold band is
reported with severity `"minimal"` — the scan variable's initial value —
not the `"moderate"` fallback the claim states (both bands exist in the
results table, so the message also comes from the `"minimal"` band). -/
theorem severity_fallback_counterexample :
    (∀ band ∈ (exCfg.questionnaire "GAD7".data).thresholds,
        ¬(band.2.1 ≤ 0 ∧ 0 ≤ band.2.2))
    ∧ (exFlow.process_user_message 5 0 exFinalQuestionSession
        "not at all".data).1.current_phase = some ConversationPhase.RESULTS
    ∧ (exFlow.process_user_message 5 0 exFinalQuestionSession
        "not at all".data).1.total_score = some 0
    ∧ (exFlow.process_user_message 5 0 exFinalQuestionSession
        "not at all".data).1.severity_level = some "minimal".data
    ∧ (exFlow.process_user_message 5 0 exFinalQuestionSession
        "not at all".data).1.ai_response = some "min msg".data
    ∧ ("minimal".data : Str) ≠ "moderate".data := by
  refine ⟨by decide, rfl, rfl, rfl, rfl, by decide⟩

/-- C7 (amended): answering the final question of the selected tool with a
mappable reply (when no crisis path fires) moves the session to RESULTS
with `completed = true`; the reported total is the sum of all recorded
mapped scores including the final one, and the reported severity is the
first threshold band whose inclusive range contains the total — falling
back to `"minimal"` (not `"moderate"`) when no band matches, with the
`"normal" → "minimal"` rename, and the `"moderately_severe" → "severe"`
rename when that name is missing from the results table
(`reportedSeverity`). -/
theorem results_transition_spec (f : ConversationFlowManager) (now rand : Nat)
    (s : SessionData) (msg : Str) (tool : ScreeningTool) (score : Int)
    (hph : s.current_phase = ConversationPhase.SCREENING)
    (htool : s.selected_tool = some tool)
    (hcr : s.crisis_detected = false)
    (hov : (f.safety_monitor.check_for_crisis (some msg)).requires_override = false)
    (hscore : f._map_response_to_score msg tool.name = some score)
    (hne : score ≠ -1)
    (hfinal : s.responses.length + 1 = (f.config.questionnaire tool.name).questions.length)
    (hnoq9 : ¬(tool = ScreeningTool.PHQ9
        ∧ (f.config.questionnaire tool.name).crisisQuestionIndex = some s.responses.length
        ∧ 0 < score)) :
    (f.process_user_message now rand s msg).1.current_phase
        = some ConversationPhase.RESULTS
    ∧ (f.process_user_message now rand s msg).1.completed = some true
    ∧ (f.process_user_message now rand s msg).2.current_phase
        = ConversationPhase.RESULTS
    ∧ (f.process_user_message now rand s msg).2.completed = true
    ∧ (f.process_user_message now rand s msg).1.total_score
        = some ((s.responses.map (fun r => r.mapped_score)).sum + score)
    ∧ (f.process_user_message now rand s msg).1.severity_level
        = some (reportedSeverity f.config tool.name
            ((s.responses.map (fun r => r.mapped_score)).sum + score)) := by
  have hnescore : (score = -1) = False := by
    simp only [eq_iff_iff, iff_false]
    exact hne
  have hcond : (tool.name == "PHQ9".data
      && ((f.config.questionnaire tool.name).crisisQuestionIndex == some s.responses.length)
      && decide (score > 0)) = false := by
    by_contra hb
    rw [Bool.not_eq_false] at hb
    simp only [Bool.and_eq_true, beq_iff_eq, decide_eq_true_eq] at hb
    obtain ⟨⟨hn, hi⟩, hsc⟩ := hb
    apply hnoq9
    have htl : tool = ScreeningTool.PHQ9 := by
      cases tool
      · rfl
      · exact absurd hn (by decide)
      · exact absurd hn (by decide)
    exact ⟨htl, hi, hsc⟩
  have hnlt : ¬(s.responses.length + 1
      < (f.config.questionnaire tool.name).questions.length) := by
    omega
  unfold ConversationFlowManager.process_user_message
  simp only [hov, Bool.false_eq_true, if_false, hcr, hph]
  unfold ConversationFlowManager._handle_screening_phase
  simp only [htool, hscore, hnescore, if_false, hcond, Bool.false_eq_true]
  rw [dif_neg hnlt]
  unfold ConversationFlowManager._transition_to_results
  simp only [live_update_tool, add_resp_tool, htool]
  unfold SessionData.get_total_score
  simp only [live_update_responses, add_resp_responses, List.map_append,
    List.sum_append, List.map_cons, List.map_nil, List.sum_cons, List.sum_nil,
    add_zero]
  unfold reportedSeverity
  cases hopt : pyDictGetOpt f.config.results
      (if severityScan (f.config.questionnaire tool.name).thresholds
            ((s.responses.map (fun r => r.mapped_score)).sum + score) == "normal".data
       then "minimal".data
       else severityScan (f.config.questionnaire tool.name).thresholds
            ((s.responses.map (fun r => r.mapped_score)).sum + score)) with
  | none =>
    simp only [hopt]
    split
    · simp
    · split <;> simp
  | some rc =>
    simp only [hopt]
    split <;> simp

/-- C7 amended-claim witness. -/
theorem results_transition_spec_witness :
    (exFlow.process_user_message 5 0 exFinalQuestionSession
        "not at all".data).1.current_phase = some ConversationPhase.RESULTS
    ∧ (exFlow.process_user_message 5 0 exFinalQuestionSession
        "not at all".data).1.completed = some true
    ∧ (exFlow.process_user_message 5 0 exFinalQuestionSession
        "not at all".data).2.current_phase = ConversationPhase.RESULTS
    ∧ (exFlow.process_user_message 5 0 exFinalQuestionSession
        "not at all".data).2.completed = true
    ∧ (exFlow.process_user_message 5 0 exFinalQuestionSession
        "not at all".data).1.total_score
      = some ((exFinalQuestionSession.responses.map (fun r => r.mapped_score)).sum + 0)
    ∧ (exFlow.process_user_message 5 0 exFinalQuestionSession
        "not at all".data).1.severity_level
      = some (reportedSeverity exCfg "GAD7".data
          ((exFinalQuestionSession.responses.map (fun r => r.mapped_score)).sum + 0)) :=
  results_transition_spec exFlow 5 0 exFinalQuestionSession "not at all".data
    ScreeningTool.GAD7 0 rfl rfl rfl rfl rfl (by decide) (by decide) (by decide)

/-- C8 (code bug evidence): a TRIAGE message matching a tool's routing
keywords sets `selected_tool`, advances to SCREENING and emits question #1,
but the stale `responses` are NOT cleared: `_handle_triage_phase` passes
`responses={}` yet the `allowed_fields` whitelist of
`SessionManager.update_session` silently drops that key, contradicting the
source's own inline comment ("Clear any old responses if any"). -/
theorem triage_does_not_clear_responses :
    (exFlow.process_user_message 5 0 exStaleTriageSession "anxious".data).2.current_phase
      = ConversationPhase.SCREENING
    ∧ (exFlow.process_user_message 5 0 exStaleTriageSession "anxious".data).2.selected_tool
      = some ScreeningTool.GAD7
    ∧ (exFlow.process_user_message 5 0 exStaleTriageSession "anxious".data).1.question_number
      = some 1
    ∧ exStaleTriageSession.responses ≠ []
    ∧ (exFlow.process_user_message 5 0 exStaleTriageSession "anxious".data).2.responses
      = exStaleTriageSession.responses :=
  ⟨rfl, rfl, rfl, by decide, rfl⟩

/-- C9 counterexample: with a routing entry pointing at a tool that has no
questionnaire entry (so its question list is `[]`), a fresh session walked
through greeting → consent → triage → one screening answer ends with
`responses.length = 1`, exceeding the selected tool's question count 0
(triage advances the phase before reading `questions[0]`, and the
IndexError is swallowed by the handler's except branch). -/
theorem responses_bound_counterexample :
    (runMessages exNoQuestionsFlow (newSessionData 1 0)
        [("hi".data, 1, 0), ("yes".data, 2, 0), ("sad".data, 3, 0),
         ("not at all".data, 4, 0)]).selected_tool = some ScreeningTool.PHQ9
    ∧ (runMessages exNoQuestionsFlow (newSessionData 1 0)
        [("hi".data, 1, 0), ("yes".data, 2, 0), ("sad".data, 3, 0),
         ("not at all".data, 4, 0)]).responses.length = 1
    ∧ toolQuestionCount exNoQuestionsCfg ScreeningTool.PHQ9 = 0 :=
  ⟨rfl, rfl, rfl⟩

/-! ### The screening-progress invariant (C9) -/

theorem respBound_of_flowInv (cfg : BotConfig) (s : SessionData)
    (hinv : flowInv cfg s) : respBound cfg s := by
  unfold flowInv at hinv
  unfold respBound
  cases hph : s.current_phase <;> rw [hph] at hinv
  case GREETING =>
    cases s.selected_tool
    · exact hinv
    · rw [hinv]; simp
  case TRIAGE =>
    cases s.selected_tool
    · exact hinv
    · rw [hinv]; simp
  case SCREENING =>
    rcases hinv with ⟨t, ht, hlt⟩
    rw [ht]
    exact le_of_lt hlt
  case RESULTS => exact hinv
  case CRISIS_RESPONSE => exact hinv

theorem respBound_congr (cfg : BotConfig) {s s' : SessionData}
    (hts : s'.selected_tool = s.selected_tool) (hrs : s'.responses = s.responses)
    (h : respBound cfg s) : respBound cfg s' := by
  unfold respBound at h ⊢
  rw [hts, hrs]
  exact h

theorem flowInv_mk_greeting (cfg : BotConfig) (s : SessionData)
    (hph : s.current_phase = ConversationPhase.GREETING)
    (h : s.responses = []) : flowInv cfg s := by
  unfold flowInv
  rw [hph]
  exact h

theorem flowInv_mk_triage (cfg : BotConfig) (s : SessionData)
    (hph : s.current_phase = ConversationPhase.TRIAGE)
    (h : s.responses = []) : flowInv cfg s := by
  unfold flowInv
  rw [hph]
  exact h

theorem flowInv_mk_screening (cfg : BotConfig) (s : SessionData) (t : ScreeningTool)
    (hph : s.current_phase = ConversationPhase.SCREENING)
    (ht : s.selected_tool = some t)
    (hlt : s.responses.length < toolQuestionCount cfg t) : flowInv cfg s := by
  unfold flowInv
  rw [hph]
  exact ⟨t, ht, hlt⟩

theorem flowInv_mk_results (cfg : BotConfig) (s : SessionData)
    (hph : s.current_phase = ConversationPhase.RESULTS)
    (h : respBound cfg s) : flowInv cfg s := by
  unfold flowInv
  rw [hph]
  exact h

theorem flowInv_mk_crisis (cfg : BotConfig) (s : SessionData)
    (hph : s.current_phase = ConversationPhase.CRISIS_RESPONSE)
    (h : respBound cfg s) : flowInv cfg s := by
  unfold flowInv
  rw [hph]
  exact h

theorem flowInv_greeting_responses (cfg : BotConfig) (s : SessionData)
    (hph : s.current_phase = ConversationPhase.GREETING)
    (hinv : flowInv cfg s) : s.responses = [] := by
  unfold flowInv at hinv
  rw [hph] at hinv
  exact hinv

theorem flowInv_triage_responses (cfg : BotConfig) (s : SessionData)
    (hph : s.current_phase = ConversationPhase.TRIAGE)
    (hinv : flowInv cfg s) : s.responses = [] := by
  unfold flowInv at hinv
  rw [hph] at hinv
  exact hinv

theorem flowInv_screening_dest (cfg : BotConfig) (s : SessionData)
    (hph : s.current_phase = ConversationPhase.SCREENING)
    (hinv : flowInv cfg s) :
    ∃ t, s.selected_tool = some t
      ∧ s.responses.length < toolQuestionCount cfg t := by
  unfold flowInv at hinv
  rw [hph] at hinv
  exact hinv

theorem toolPick_name (n : Str) : (toolPick n).2 = (toolPick n).1.name := by
  unfold toolPick tool_mapping
  by_cases h1 : (n == "PHQ9".data) = true
  · rw [beq_iff_eq] at h1
    simp [h1, ScreeningTool.name]
  · simp only [h1, Bool.false_eq_true, if_false]
    by_cases h2 : (n == "GAD7".data) = true
    · rw [beq_iff_eq] at h2
      simp [h2, ScreeningTool.name]
    · simp only [h2, Bool.false_eq_true, if_false]
      by_cases h3 : (n == "GHQ12".data) = true
      · rw [beq_iff_eq] at h3
        simp [h3, ScreeningTool.name]
      · simp [h1, h2, h3, ScreeningTool.name]

theorem flowInv_crisis_handler (f : ConversationFlowManager) (now : Nat)
    (s : SessionData) (msg : Str) (cr : CrisisResponse)
    (hinv : flowInv f.config s) :
    flowInv f.config (f._handle_crisis_response now s msg cr).2 := by
  have hrb := respBound_of_flowInv _ _ hinv
  apply flowInv_mk_crisis
  · simp [ConversationFlowManager._handle_crisis_response]
  · refine respBound_congr _ ?_ ?_ hrb
    · simp [ConversationFlowManager._handle_crisis_response]
    · simp [ConversationFlowManager._handle_crisis_response]

theorem flowInv_phq9_handler (f : ConversationFlowManager) (now : Nat)
    (s : SessionData) (msg : Str) (score : Int) (t : ScreeningTool)
    (ht : s.selected_tool = some t)
    (hle : s.responses.length + 1 ≤ toolQuestionCount f.config t) :
    flowInv f.config (f._handle_phq9_q9_crisis now s msg score).2 := by
  have hph3 : (f._handle_phq9_q9_crisis now s msg score).2.current_phase
      = ConversationPhase.CRISIS_RESPONSE := by
    simp [ConversationFlowManager._handle_phq9_q9_crisis]
  have htool3 : (f._handle_phq9_q9_crisis now s msg score).2.selected_tool = some t := by
    simp [ConversationFlowManager._handle_phq9_q9_crisis, ht]
  have hresp3 : (f._handle_phq9_q9_crisis now s msg score).2.responses
      = s.responses ++ [⟨"phq9_9".data, msg, score, now⟩] := by
    simp [ConversationFlowManager._handle_phq9_q9_crisis]
  apply flowInv_mk_crisis _ _ hph3
  unfold respBound
  simp only [htool3, hresp3, List.length_append, List.length_cons, List.length_nil]
  omega

theorem flowInv_greeting_handler (f : ConversationFlowManager) (now : Nat)
    (s : SessionData) (msg : Str)
    (hph : s.current_phase = ConversationPhase.GREETING)
    (hresp : s.responses = []) :
    flowInv f.config (f._handle_greeting_phase now s msg).2 := by
  unfold ConversationFlowManager._handle_greeting_phase
  dsimp only
  split
  · apply flowInv_mk_greeting <;> simp [hph, hresp]
  · split
    · apply flowInv_mk_triage <;> simp [hresp]
    · split
      · apply flowInv_mk_greeting <;> simp [hph, hresp]
      · apply flowInv_mk_greeting <;> simp [hph, hresp]

theorem flowInv_triage_handler (f : ConversationFlowManager) (now : Nat)
    (s : SessionData) (msg : Str)
    (hwf : ∀ t : ScreeningTool, 1 ≤ toolQuestionCount f.config t)
    (hph : s.current_phase = ConversationPhase.TRIAGE)
    (hresp : s.responses = []) :
    flowInv f.config (f._handle_triage_phase now s msg).2 := by
  unfold ConversationFlowManager._handle_triage_phase
  cases hr : routeLookup f.config.routing (pyLower msg) with
  | none =>
    simp only [hr]
    apply flowInv_mk_triage <;> simp [hph, hresp]
  | some mn =>
    simp only [hr]
    cases hq : (f.config.questionnaire (toolPick mn).2).questions with
    | nil =>
      exfalso
      have h1 := hwf (toolPick mn).1
      unfold toolQuestionCount at h1
      rw [← toolPick_name, hq] at h1
      simp at h1
    | cons q rest =>
      simp only [hq]
      have h1 := hwf (toolPick mn).1
      apply flowInv_mk_screening _ _ (toolPick mn).1
      · simp
      · simp
      · simp only [add_conv_responses, live_update_responses, hresp, List.length_nil]
        omega

theorem flowInv_results_transition (f : ConversationFlowManager) (now rand : Nat)
    (s1 : SessionData) (msg : Str) (t : ScreeningTool)
    (ht : s1.selected_tool = some t)
    (hle : s1.responses.length ≤ toolQuestionCount f.config t) :
    flowInv f.config (f._transition_to_results now rand s1 msg).2 := by
  unfold ConversationFlowManager._transition_to_results
  simp only [live_update_tool, ht]
  apply flowInv_mk_results
  · simp
  · unfold respBound
    simp only [add_conv_tool, live_update_tool, ht, add_conv_responses,
      live_update_responses]
    exact hle

theorem flowInv_screening_handler (f : ConversationFlowManager) (now rand : Nat)
    (s : SessionData) (msg : Str)
    (hph : s.current_phase = ConversationPhase.SCREENING)
    (hinv : flowInv f.config s) :
    flowInv f.config (f._handle_screening_phase now rand s msg).2 := by
  rcases flowInv_screening_dest _ _ hph hinv with ⟨t, ht, hlt⟩
  unfold ConversationFlowManager._handle_screening_phase
  simp only [ht]
  cases hsc : f._map_response_to_score msg t.name with
  | none =>
    simp only [hsc]
    exact hinv
  | some score =>
    simp only [hsc]
    by_cases hm1 : score = -1
    · rw [if_pos hm1]
      apply flowInv_mk_screening _ _ t
      · simp [hph]
      · simp [ht]
      · simp only [add_conv_responses]
        exact hlt
    · rw [if_neg hm1]
      by_cases hq9 : (t.name == "PHQ9".data
          && ((f.config.questionnaire t.name).crisisQuestionIndex
              == some s.responses.length)
          && decide (score > 0)) = true
      · rw [if_pos hq9]
        exact flowInv_phq9_handler f now s msg score t ht (by omega)
      · rw [if_neg hq9]
        by_cases hlt2 : s.responses.length + 1
            < (f.config.questionnaire t.name).questions.length
        · rw [dif_pos hlt2]
          apply flowInv_mk_screening _ _ t
          · simp [hph]
          · simp [ht]
          · simp only [add_conv_responses, add_resp_responses, List.length_append,
              List.length_cons, List.length_nil]
            unfold toolQuestionCount
            omega
        · rw [dif_neg hlt2]
          apply flowInv_results_transition f now rand _ msg t
          · simp [ht]
          · simp only [add_resp_responses, List.length_append, List.length_cons,
              List.length_nil]
            unfold toolQuestionCount at hlt ⊢
            omega

theorem flowInv_step (f : ConversationFlowManager)
    (hwf : ∀ t : ScreeningTool, 1 ≤ toolQuestionCount f.config t)
    (now rand : Nat) (s : SessionData) (msg : Str)
    (hinv : flowInv f.config s) :
    flowInv f.config (f.process_user_message now rand s msg).2 := by
  unfold ConversationFlowManager.process_user_message
  by_cases hov : (f.safety_monitor.check_for_crisis (some msg)).requires_override = true
  · simp only [hov, if_true]
    exact flowInv_crisis_handler f now s msg _ hinv
  · simp only [Bool.not_eq_true] at hov
    simp only [hov, Bool.false_eq_true, if_false]
    by_cases hcr : s.crisis_detected = true
    · simp only [hcr, if_true]
      exact hinv
    · simp only [Bool.not_eq_true] at hcr
      simp only [hcr, Bool.false_eq_true, if_false]
      cases hph : s.current_phase
      · exact flowInv_greeting_handler f now s msg hph
          (flowInv_greeting_responses _ _ hph hinv)
      · exact flowInv_triage_handler f now s msg hwf hph
          (flowInv_triage_responses _ _ hph hinv)
      · exact flowInv_screening_handler f now rand s msg hph hinv
      · exact hinv
      · exact hinv

theorem flowInv_run (f : ConversationFlowManager)
    (hwf : ∀ t : ScreeningTool, 1 ≤ toolQuestionCount f.config t)
    (s : SessionData) (msgs : List (Str × Nat × Nat))
    (hinv : flowInv f.config s) :
    flowInv f.config (runMessages f s msgs) := by
  induction msgs generalizing s with
  | nil => exact hinv
  | cons e rest ih =>
    rcases e with ⟨msg, now, rand⟩
    exact ih _ (flowInv_step f hwf now rand s msg hinv)

/-- C9 (amended): provided every tool's question list in the configuration
is nonempty, along any sequence of `process_user_message` calls on a fresh
live session the length of `responses` never exceeds the selected tool's
question count (and `responses` stays empty while no tool is selected). -/
theorem responses_bound_spec (f : ConversationFlowManager)
    (hwf : ∀ t : ScreeningTool, 1 ≤ toolQuestionCount f.config t)
    (sid now0 : Nat) (msgs : List (Str × Nat × Nat)) :
    respBound f.config (runMessages f (newSessionData sid now0) msgs) := by
  apply respBound_of_flowInv
  apply flowInv_run f hwf _ msgs
  apply flowInv_mk_greeting <;> rfl

/-- C9 amended-claim witness. -/
theorem responses_bound_spec_witness :
    respBound exWfCfg (runMessages exWfFlow (newSessionData 1 0)
      [("hi".data, 1, 0), ("yes".data, 2, 0), ("anxious".data, 3, 0),
       ("not at all".data, 4, 0)]) :=
  responses_bound_spec exWfFlow (fun t => by cases t <;> decide) 1 0
    [("hi".data, 1, 0), ("yes".data, 2, 0), ("anxious".data, 3, 0),
     ("not at all".data, 4, 0)]

end MHABackend
